import Mathlib

/-!
# Verification of the helloplus navigation/caching core

Shallow embedding of the row/item virtualization core of the helloplus
application (`src/main.rs` together with the `api` crate).  Rendering calls
(conrod widget placement, `draw_image`, `draw_image_highlighted`,
`show_row_title`) have no effect on the navigation/caching state and are
omitted; every stateful effect of the source functions is modelled.

`usize` arithmetic is modelled on `Nat`.  The two subtractions performed by
the source on possibly-smaller values
(`true_set_index - self.prev_visible_range.start` in `visible_set_range`,
and `get_num_of_sets().unwrap() - 1` in `move_to_next_set`) are compared
against small constants; on all values a `usize` can take, release-mode
wrap-around gives the same comparison result as truncated `Nat`
subtraction, which is what the embedding uses (noted again at each site).

Timestamps (`std::time::Instant`) are modelled as `Nat` milliseconds and
threaded as explicit `now` arguments.
-/

/-- `NUM_ROWS` from main.rs: number of visible rows. -/
def NUM_ROWS : Nat := 4

/-- `ROW_STRIDE` from main.rs: number of viewport slots per row. -/
def ROW_STRIDE : Nat := 6

/-- `BUFFERED_ROWS` from main.rs: capacity of the positional row ring. -/
def BUFFERED_ROWS : Nat := 6

/-- `SINGLE_LOOP_MAX_LOAD` from main.rs: image loads allowed per main-loop pass. -/
def SINGLE_LOOP_MAX_LOAD : Nat := 2

/-- `ITEM_LOADING_LOOP_THRESHOLD` from main.rs (milliseconds). -/
def ITEM_LOADING_LOOP_THRESHOLD : Nat := 190

/-- `IMAGE_SCALE_DOWN_FACTOR` from main.rs (`0.75`, exact in binary floating point,
modelled as the rational `3/4`). -/
def IMAGE_SCALE_DOWN_FACTOR : ℚ := 3 / 4

/-- `PLACEHOLDER_AND_NOT_FOUND_SCALED_W` from main.rs (`500.0 * 0.75`). -/
def PLACEHOLDER_AND_NOT_FOUND_SCALED_W : ℚ := 500 * IMAGE_SCALE_DOWN_FACTOR

/-- `PLACEHOLDER_AND_NOT_FOUND_SCALED_H` from main.rs (`220.0 * 0.75`). -/
def PLACEHOLDER_AND_NOT_FOUND_SCALED_H : ℚ := 220 * IMAGE_SCALE_DOWN_FACTOR

/-- The conrod image id of the "image-not-found" texture.  `DisplayController::new`
inserts it into the fresh image map first, so it gets the first id. -/
def nf_img_id : Nat := 0

/-- The conrod image id of the placeholder texture, inserted second in
`DisplayController::new`. -/
def placeholder_img_id : Nat := 1

/-- `CachedImgData` from main.rs: an image-map key plus the (scaled) dimensions. -/
structure CachedImgData where
  img_id : Nat
  w : ℚ
  h : ℚ
deriving DecidableEq

/-- The data of one set visible to `SetRow`: `api::SetData` exposes
`get_item_count` (the length of the `items` array of the JSON entry). -/
structure SetDataM where
  item_count : Nat
deriving DecidableEq

/-- `api::SetData::get_item_count`. -/
def SetDataM.get_item_count (d : SetDataM) : Nat := d.item_count

/-- The loaded `api::Api`.  `num_sets` is the length of the `containers` array;
`sets` gives the per-set data; `tile_image set item` is the outcome of
`SetData::get_home_tile_image` for that set/item: `some (w, h)` returns the raw
pixel dimensions of a successfully fetched and decoded image, `none` is any
fetch/parse failure.  (`main` calls `load_home_data` before anything else, so
the embedding models the api in its loaded state.) -/
structure ApiM where
  num_sets : Nat
  sets : Nat → SetDataM
  tile_image : Nat → Nat → Option (Nat × Nat)

/-- `Api::get_set`: `None` exactly when `set_idx` is out of range of the
`containers` array. -/
def ApiM.get_set (a : ApiM) (set_idx : Nat) : Option SetDataM :=
  if set_idx < a.num_sets then some (a.sets set_idx) else none

/-- `Api::get_num_of_sets` on a loaded api. -/
def ApiM.get_num_of_sets (a : ApiM) : Option Nat := some a.num_sets

/-- `SetRow` from main.rs.  The `title` field is only handed to the text widget
and is omitted; `set_data` keeps the data `fetch_row`/`initialize` obtained from
the api. -/
structure SetRow where
  set_data : SetDataM
  true_set_idx : Nat
  cached_img_id : List CachedImgData
  left_right_idx_adjustment : Nat
deriving DecidableEq

/-- `SetRow::new`. -/
def SetRow.new (set_data : SetDataM) (true_set_idx : Nat) : SetRow :=
  { set_data := set_data
    true_set_idx := true_set_idx
    cached_img_id := []
    left_right_idx_adjustment := 0 }

/-- `SetRow::shift_right` (main.rs:215-224).  Returns the mutated row together
with the `bool` the source returns. -/
def SetRow.shift_right (r : SetRow) (adjusted_item_idx true_item_idx : Nat) :
    SetRow × Bool :=
  if true_item_idx + 1 < r.set_data.get_item_count then
    (if adjusted_item_idx + 4 > ROW_STRIDE then
      { r with left_right_idx_adjustment := r.left_right_idx_adjustment + 1 }
     else r, true)
  else
    (r, false)

/-- `SetRow::shift_left` (main.rs:229-233). -/
def SetRow.shift_left (r : SetRow) (adjusted_item_idx : Nat) : SetRow :=
  if r.left_right_idx_adjustment > 0 ∧ adjusted_item_idx < 2 then
    { r with left_right_idx_adjustment := r.left_right_idx_adjustment - 1 }
  else r

/-- The mutable part of `DispCtrlImgData`: the conrod image map, abstracted to
the next id it will hand out (the not-found and placeholder textures hold ids
`0` and `1`).  `fetch_attempts` is a ghost counter recording how many times
`get_home_tile_image` has been invoked (one per fetch attempt); it exists only
so that theorems can speak about the number of fetch attempts and influences
nothing. -/
structure DispCtrlImgData where
  next_img_id : Nat
  fetch_attempts : Nat
deriving DecidableEq

/-- `SetRow::get_home_tile_or_not_found` (main.rs:259-283): fetch the tile
image; on success register it in the image map and scale the dimensions by
`IMAGE_SCALE_DOWN_FACTOR`, on failure use the shared not-found texture with the
fixed fallback dimensions. -/
def SetRow.get_home_tile_or_not_found (api : ApiM) (r : SetRow)
    (true_item_idx : Nat) (img_data : DispCtrlImgData) :
    CachedImgData × DispCtrlImgData :=
  match api.tile_image r.true_set_idx true_item_idx with
  | some wh =>
      (⟨img_data.next_img_id, (wh.1 : ℚ) * IMAGE_SCALE_DOWN_FACTOR,
          (wh.2 : ℚ) * IMAGE_SCALE_DOWN_FACTOR⟩,
        ⟨img_data.next_img_id + 1, img_data.fetch_attempts + 1⟩)
  | none =>
      (⟨nf_img_id, PLACEHOLDER_AND_NOT_FOUND_SCALED_W,
          PLACEHOLDER_AND_NOT_FOUND_SCALED_H⟩,
        ⟨img_data.next_img_id, img_data.fetch_attempts + 1⟩)

/-- `ImgLoadingNotifier` from main.rs. -/
structure ImgLoadingNotifier where
  needs_to_load : Bool
  single_loop_load_count : Nat
  last_download_time : Option Nat
deriving DecidableEq

/-- `ImgLoadingNotifier::reset` (main.rs:775-785): a no-op while the cooldown
since the last recorded load has not elapsed. -/
def ImgLoadingNotifier.reset (n : ImgLoadingNotifier) (now : Nat) :
    ImgLoadingNotifier :=
  match n.last_download_time with
  | some last_update =>
      if now - last_update < ITEM_LOADING_LOOP_THRESHOLD then n
      else ⟨false, 0, none⟩
  | none => ⟨false, 0, none⟩

/-- `ImgLoadingNotifier::image_loaded` (main.rs:787-790). -/
def ImgLoadingNotifier.image_loaded (n : ImgLoadingNotifier) (now : Nat) :
    ImgLoadingNotifier :=
  { n with single_loop_load_count := n.single_loop_load_count + 1
           last_download_time := some now }

/-- `SetRow::populate_cache_if_needed` (main.rs:285-343). -/
def SetRow.populate_cache_if_needed (api : ApiM) (r : SetRow)
    (true_item_idx : Nat) (img_data : DispCtrlImgData)
    (notifier : ImgLoadingNotifier) (now : Nat) :
    SetRow × DispCtrlImgData × ImgLoadingNotifier :=
  let can_load_more := notifier.single_loop_load_count < SINGLE_LOOP_MAX_LOAD
  match r.cached_img_id[true_item_idx]? with
  | some cached =>
      if cached.img_id = placeholder_img_id ∧ can_load_more then
        let fetched := r.get_home_tile_or_not_found api true_item_idx img_data
        ({ r with cached_img_id := r.cached_img_id.set true_item_idx fetched.1 },
          fetched.2, notifier.image_loaded now)
      else if cached.img_id = placeholder_img_id ∧ ¬ can_load_more then
        (r, img_data, { notifier with needs_to_load := true })
      else
        (r, img_data, notifier)
  | none =>
      if can_load_more then
        let fetched := r.get_home_tile_or_not_found api true_item_idx img_data
        ({ r with cached_img_id := r.cached_img_id ++ [fetched.1] },
          fetched.2, notifier.image_loaded now)
      else
        ({ r with cached_img_id := r.cached_img_id ++
            [⟨placeholder_img_id, PLACEHOLDER_AND_NOT_FOUND_SCALED_W,
                PLACEHOLDER_AND_NOT_FOUND_SCALED_H⟩] },
          img_data, { notifier with needs_to_load := true })

/-- `Cursor` from main.rs (all-zero at startup via `Cursor::default`). -/
structure Cursor where
  true_set_idx : Nat
  true_item_idx : Nat
  adjusted_item_idx : Nat
deriving DecidableEq

/-- `Cursor::default()`. -/
def Cursor.start : Cursor := ⟨0, 0, 0⟩

/-- `HighlightedItemData` from main.rs. -/
structure HighlightedItemData where
  img_id : Nat
  w : ℚ
  h : ℚ
  true_set_idx : Nat
  adjusted_item_idx : Nat
  adjusted_set_idx : Nat
deriving DecidableEq

/-- Accumulator for the nested `show` loops: the row being drawn, the shared
image data, the notifier and the `highlighted_data` local of
`update_image_widgets`. -/
structure ShowAcc where
  row : SetRow
  img_data : DispCtrlImgData
  notifier : ImgLoadingNotifier
  highlighted : Option HighlightedItemData
deriving DecidableEq

/-- `SetRow::show` (main.rs:356-410), minus the two widget placements.  The
`none` branch of the inner match models the source's
`self.cached_img_id.get(true_item_idx).unwrap()`: the source panics there; the
safety theorem shows the branch is never taken in reachable states. -/
def SetRow.show_item (api : ApiM) (r : SetRow) (cursor : Cursor)
    (adjusted_set_idx adjusted_item_idx : Nat) (img_data : DispCtrlImgData)
    (notifier : ImgLoadingNotifier) (now : Nat) : ShowAcc :=
  let true_item_idx := adjusted_item_idx + r.left_right_idx_adjustment
  let res := r.populate_cache_if_needed api true_item_idx img_data notifier now
  let hd : Option HighlightedItemData :=
    match res.1.cached_img_id[true_item_idx]? with
    | some data =>
        if cursor.true_set_idx = res.1.true_set_idx ∧
            cursor.true_item_idx = true_item_idx then
          some ⟨data.img_id, data.w, data.h, res.1.true_set_idx,
            adjusted_item_idx, adjusted_set_idx⟩
        else none
    | none => none
  ⟨res.1, res.2.1, res.2.2, hd⟩

/-- The list `[a, a+1, ..., a+m-1]`: the item indices of a
`for adjusted_item_idx in a..a+m` loop. -/
def itemIdxs : Nat → Nat → List Nat
  | _, 0 => []
  | a, m + 1 => a :: itemIdxs (a + 1) m

/-- The `for adjusted_item_idx in 0..ROW_STRIDE` loop body shared by
`DisplayController::initialize` and `update_image_widgets`: run
`SetRow::show` for each listed item index, keeping the last `Some`
highlight (`if found_highlighted.is_some() { highlighted_data = ... }`). -/
def show_items_go (api : ApiM) (cursor : Cursor) (adjusted_set_idx : Nat)
    (now : Nat) : List Nat → ShowAcc → ShowAcc
  | [], acc => acc
  | a :: rest, acc =>
      let s := acc.row.show_item api cursor adjusted_set_idx a acc.img_data
        acc.notifier now
      show_items_go api cursor adjusted_set_idx now rest
        ⟨s.row, s.img_data, s.notifier,
          if s.highlighted.isSome then s.highlighted else acc.highlighted⟩

/-- `Range<usize>` as stored in `prev_visible_range`. -/
structure NatRange where
  start : Nat
  stop : Nat
deriving DecidableEq

/-- `DisplayController::visible_set_range` (main.rs:584-597), as a function of
the previous range.  The source compares `true_set_index - prev.start == 1` on
`usize`; for every pair of values below `2^64` the release-mode wrapping
subtraction equals `1` exactly when the truncated `Nat` subtraction does, so
truncated subtraction is used.  The caller stores the returned range back into
`prev_visible_range` (in the first branch the source skips the store because
the value is unchanged). -/
def DisplayController.visible_set_range (prev : NatRange)
    (true_set_index : Nat) : NatRange :=
  if true_set_index - prev.start = 1 then prev
  else if true_set_index + 2 > NUM_ROWS then
    ⟨true_set_index + 2 - NUM_ROWS, true_set_index + 2 - NUM_ROWS + NUM_ROWS⟩
  else ⟨0, NUM_ROWS⟩

/-- Result of `DisplayController::fetch_row`: the possibly-mutated `rows`
vector, the returned `Option<&mut SetRow>` as slot index plus row value, and a
ghost flag recording whether `api.get_set` was consulted (a row-data fetch). -/
structure FetchRowResult where
  rows : List SetRow
  found : Option (Nat × SetRow)
  queried : Bool
deriving DecidableEq

/-- The miss path of `DisplayController::fetch_row` (main.rs:614-630): fetch
the set data; if present store a fresh `SetRow` (pushing when the home slot is
at or past the end of the vector, else overwriting) and return
`rows.get_mut(true_set_idx % BUFFERED_ROWS)` over the updated vector. -/
def DisplayController.fetch_row_miss (api : ApiM) (rows : List SetRow)
    (true_set_idx : Nat) : FetchRowResult :=
  match api.get_set true_set_idx with
  | some row_data =>
      let set_row := SetRow.new row_data true_set_idx
      let rows' :=
        if true_set_idx % BUFFERED_ROWS ≥ rows.length then rows ++ [set_row]
        else rows.set (true_set_idx % BUFFERED_ROWS) set_row
      if true_set_idx % BUFFERED_ROWS < rows'.length then
        ⟨rows', some (true_set_idx % BUFFERED_ROWS, set_row), true⟩
      else ⟨rows', none, true⟩
  | none => ⟨rows, none, true⟩

/-- `DisplayController::fetch_row` (main.rs:600-631): positional ring lookup
with overwrite-on-miss. -/
def DisplayController.fetch_row (api : ApiM) (rows : List SetRow)
    (true_set_idx : Nat) : FetchRowResult :=
  match rows[true_set_idx % BUFFERED_ROWS]? with
  | some r =>
      if r.true_set_idx = true_set_idx then
        ⟨rows, some (true_set_idx % BUFFERED_ROWS, r), false⟩
      else DisplayController.fetch_row_miss api rows true_set_idx
  | none => DisplayController.fetch_row_miss api rows true_set_idx

/-- Accumulator of the row loop of `update_image_widgets`. -/
structure UpdateAcc where
  rows : List SetRow
  img_data : DispCtrlImgData
  notifier : ImgLoadingNotifier
  highlighted : Option HighlightedItemData
deriving DecidableEq

/-- `(adjusted_set_idx, true_set_idx)` pairs of
`visible_range.enumerate()` starting at adjusted index `a` and true index `t`,
`m` entries long. -/
def bandPairs : Nat → Nat → Nat → List (Nat × Nat)
  | _, _, 0 => []
  | a, t, m + 1 => (a, t) :: bandPairs (a + 1) (t + 1) m

/-- The inner `for adjusted_item_idx in 0..ROW_STRIDE` loop over one row, as
both `initialize` and `update_image_widgets` run it: a fresh `highlighted`
accumulator, then `SetRow::show` for each of the `ROW_STRIDE` slots. -/
def showRowPass (api : ApiM) (cursor : Cursor) (adjusted_set_idx now : Nat)
    (r : SetRow) (img_data : DispCtrlImgData) (notifier : ImgLoadingNotifier) :
    ShowAcc :=
  show_items_go api cursor adjusted_set_idx now (itemIdxs 0 ROW_STRIDE)
    ⟨r, img_data, notifier, none⟩

/-- The `for (adjusted_set_idx, true_set_idx) in ...enumerate()` loop of
`update_image_widgets` (main.rs:641-667): resolve each row (stopping at the
first failed resolution, the source's `break`), then show its `ROW_STRIDE`
items. -/
def update_rows_go (api : ApiM) (cursor : Cursor) (now : Nat) :
    List (Nat × Nat) → UpdateAcc → UpdateAcc
  | [], acc => acc
  | (adjusted_set_idx, t) :: rest, acc =>
      let fr := DisplayController.fetch_row api acc.rows t
      match fr.found with
      | none => ⟨fr.rows, acc.img_data, acc.notifier, acc.highlighted⟩
      | some ir =>
          let s := showRowPass api cursor adjusted_set_idx now ir.2
            acc.img_data acc.notifier
          update_rows_go api cursor now rest
            ⟨fr.rows.set ir.1 s.row, s.img_data, s.notifier,
              if s.highlighted.isSome then s.highlighted else acc.highlighted⟩

/-- The mutable state of `DisplayController` (plus the notifier it shares with
the event loop).  `display`, `api_handle` and the widget ids are immutable
collaborator handles. -/
structure ControllerState where
  initialized : Bool
  rows : List SetRow
  disp_ctrl_img_data : DispCtrlImgData
  prev_visible_range : NatRange
  cursor : Cursor
  notifier : ImgLoadingNotifier
deriving DecidableEq

/-- `DisplayController::update_image_widgets` (main.rs:633-696): recompute the
visible band, resolve and show every row in it, then record the highlighted
item's adjusted index in the cursor and re-resolve its row for the enlarged
draw. -/
def DisplayController.update_image_widgets (api : ApiM)
    (st : ControllerState) (now : Nat) : ControllerState :=
  let rg := DisplayController.visible_set_range st.prev_visible_range
    st.cursor.true_set_idx
  let acc := update_rows_go api st.cursor now
    (bandPairs 0 rg.start (rg.stop - rg.start))
    ⟨st.rows, st.disp_ctrl_img_data, st.notifier, none⟩
  match acc.highlighted with
  | none =>
      { st with
        rows := acc.rows
        disp_ctrl_img_data := acc.img_data
        notifier := acc.notifier
        prev_visible_range := rg }
  | some h =>
      let fr := DisplayController.fetch_row api acc.rows h.true_set_idx
      { st with
        rows := fr.rows
        disp_ctrl_img_data := acc.img_data
        notifier := acc.notifier
        prev_visible_range := rg
        cursor := { st.cursor with adjusted_item_idx := h.adjusted_item_idx } }

/-- `DisplayController::move_current_set_left` (main.rs:698-708). -/
def DisplayController.move_current_set_left (api : ApiM)
    (st : ControllerState) (now : Nat) : ControllerState :=
  let fr := DisplayController.fetch_row api st.rows st.cursor.true_set_idx
  match fr.found with
  | none => { st with rows := fr.rows }
  | some ir =>
      let r' := ir.2.shift_left st.cursor.adjusted_item_idx
      let cursor' :=
        if st.cursor.true_item_idx > 0 then
          { st.cursor with true_item_idx := st.cursor.true_item_idx - 1 }
        else st.cursor
      DisplayController.update_image_widgets api
        { st with rows := fr.rows.set ir.1 r', cursor := cursor' } now

/-- `DisplayController::move_current_set_right` (main.rs:710-719). -/
def DisplayController.move_current_set_right (api : ApiM)
    (st : ControllerState) (now : Nat) : ControllerState :=
  let fr := DisplayController.fetch_row api st.rows st.cursor.true_set_idx
  match fr.found with
  | none => { st with rows := fr.rows }
  | some ir =>
      let sh := ir.2.shift_right st.cursor.adjusted_item_idx
        st.cursor.true_item_idx
      let cursor' :=
        if sh.2 then
          { st.cursor with true_item_idx := st.cursor.true_item_idx + 1 }
        else st.cursor
      DisplayController.update_image_widgets api
        { st with rows := fr.rows.set ir.1 sh.1, cursor := cursor' } now

/-- `DisplayController::move_to_prev_set` (main.rs:721-732). -/
def DisplayController.move_to_prev_set (api : ApiM) (st : ControllerState)
    (now : Nat) : ControllerState :=
  let st' :=
    if st.cursor.true_set_idx > 0 then
      let c1 : Cursor :=
        { st.cursor with true_set_idx := st.cursor.true_set_idx - 1 }
      let fr := DisplayController.fetch_row api st.rows c1.true_set_idx
      match fr.found with
      | some ir =>
          { st with
            rows := fr.rows
            cursor := { c1 with true_item_idx :=
              st.cursor.adjusted_item_idx + ir.2.left_right_idx_adjustment } }
      | none => { st with rows := fr.rows, cursor := c1 }
    else st
  DisplayController.update_image_widgets api st' now

/-- `DisplayController::move_to_next_set` (main.rs:734-745).  The guard is
`cursor.true_set_idx < api.get_num_of_sets().unwrap() - 1` on `usize`; for a
loaded api with at least one set this agrees with truncated `Nat`
subtraction (and for zero sets both the model guard and any reachable
execution reject the move). -/
def DisplayController.move_to_next_set (api : ApiM) (st : ControllerState)
    (now : Nat) : ControllerState :=
  let st' :=
    if st.cursor.true_set_idx < api.num_sets - 1 then
      let c1 : Cursor :=
        { st.cursor with true_set_idx := st.cursor.true_set_idx + 1 }
      let fr := DisplayController.fetch_row api st.rows c1.true_set_idx
      match fr.found with
      | some ir =>
          { st with
            rows := fr.rows
            cursor := { c1 with true_item_idx :=
              st.cursor.adjusted_item_idx + ir.2.left_right_idx_adjustment } }
      | none => { st with rows := fr.rows, cursor := c1 }
    else st
  DisplayController.update_image_widgets api st' now

/-- The state just after `DisplayController::new` (main.rs:505-542): empty row
vector, `prev_visible_range = 0..NUM_ROWS`, default cursor, image map holding
the not-found and placeholder textures (ids 0 and 1, next id 2), and the
notifier as `main` constructs it (`needs_to_load = true`). -/
def DisplayController.new_state : ControllerState :=
  { initialized := false
    rows := []
    disp_ctrl_img_data := ⟨2, 0⟩
    prev_visible_range := ⟨0, NUM_ROWS⟩
    cursor := Cursor.start
    notifier := ⟨true, 0, none⟩ }

/-- The row loop of `DisplayController::initialize` (main.rs:552-571): for each
set index in the initial visible range, fetch the set data, build a fresh
`SetRow`, show its `ROW_STRIDE` items and push it.  The source uses
`get_set(set_idx).unwrap()`; the unwrap's success (`set_idx < num_sets`) is a
standing hypothesis (`NUM_ROWS ≤ api.num_sets`) of every theorem about
reachable states, so the model reads `api.sets set_idx` directly. -/
def init_rows_go (api : ApiM) (cursor : Cursor) (now : Nat) :
    List Nat → List SetRow → DispCtrlImgData → ImgLoadingNotifier →
    List SetRow × DispCtrlImgData × ImgLoadingNotifier
  | [], rows, img_data, notifier => (rows, img_data, notifier)
  | set_idx :: rest, rows, img_data, notifier =>
      let set_row := SetRow.new (api.sets set_idx) set_idx
      let s := showRowPass api cursor set_idx now set_row img_data notifier
      init_rows_go api cursor now rest (rows ++ [s.row]) s.img_data s.notifier

/-- `DisplayController::initialize` (main.rs:545-572). -/
def DisplayController.init_ctrl (api : ApiM) (st : ControllerState)
    (cursor : Cursor) (now : Nat) : ControllerState :=
  if st.initialized then st
  else
    let res := init_rows_go api cursor now
      (itemIdxs st.prev_visible_range.start
        (st.prev_visible_range.stop - st.prev_visible_range.start))
      st.rows st.disp_ctrl_img_data st.notifier
    { st with
      initialized := true
      rows := res.1
      disp_ctrl_img_data := res.2.1
      notifier := res.2.2 }

/-- The controller state at the end of startup
(`controller.initialize(&mut ui, &Cursor::default())` in `main`). -/
def startState (api : ApiM) (now : Nat) : ControllerState :=
  DisplayController.init_ctrl api DisplayController.new_state Cursor.start now

/-- One iteration of the main loop acting on the controller state: a debounced
navigation key, or the pending-load pass
(`if needs_to_load { reset; update_image_widgets }`, main.rs:883-887). -/
inductive Step (api : ApiM) : ControllerState → ControllerState → Prop
  | left (st : ControllerState) (now : Nat) :
      Step api st (DisplayController.move_current_set_left api st now)
  | right (st : ControllerState) (now : Nat) :
      Step api st (DisplayController.move_current_set_right api st now)
  | up (st : ControllerState) (now : Nat) :
      Step api st (DisplayController.move_to_prev_set api st now)
  | down (st : ControllerState) (now : Nat) :
      Step api st (DisplayController.move_to_next_set api st now)
  | refresh (st : ControllerState) (now₁ now₂ : Nat) :
      st.notifier.needs_to_load = true →
      Step api
        st
        (DisplayController.update_image_widgets api
          { st with notifier := st.notifier.reset now₁ } now₂)

/-- States the program can be in after startup. -/
inductive Reachable (api : ApiM) : ControllerState → Prop
  | start (now : Nat) : Reachable api (startState api now)
  | step {st st' : ControllerState} :
      Reachable api st → Step api st st' → Reachable api st'

/-- The operations the main loop can perform on the controller between two
scheduler resets: the four (debounced) navigation keys and the plain
pending-load redraw pass (`update_image_widgets` without a reset). -/
inductive TickOp where
  | left (now : Nat)
  | right (now : Nat)
  | up (now : Nat)
  | down (now : Nat)
  | update (now : Nat)

/-- Apply one tick operation. -/
def applyTickOp (api : ApiM) (st : ControllerState) : TickOp → ControllerState
  | TickOp.left now => DisplayController.move_current_set_left api st now
  | TickOp.right now => DisplayController.move_current_set_right api st now
  | TickOp.up now => DisplayController.move_to_prev_set api st now
  | TickOp.down now => DisplayController.move_to_next_set api st now
  | TickOp.update now => DisplayController.update_image_widgets api st now

/-- Apply a list of tick operations in order. -/
def applyTickOps (api : ApiM) : List TickOp → ControllerState → ControllerState
  | [], st => st
  | op :: rest, st => applyTickOps api rest (applyTickOp api st op)

/-- One pass of `populate_cache_if_needed` over a list of item indices of one
row (the per-row work one tick does for its visible items). -/
def populate_row_pass (api : ApiM) (idxs : List Nat)
    (x : SetRow × DispCtrlImgData × ImgLoadingNotifier) (now : Nat) :
    SetRow × DispCtrlImgData × ImgLoadingNotifier :=
  idxs.foldl
    (fun acc i => acc.1.populate_cache_if_needed api i acc.2.1 acc.2.2 now) x

/-- Number of placeholder entries in an item cache. -/
def placeholder_count (l : List CachedImgData) : Nat :=
  (l.filter (fun c => c.img_id == placeholder_img_id)).length

/-- Concrete api used by witnesses: 8 sets of 9 items each, all image
fetches fail (the not-found path, irrelevant to what the witnesses check). -/
def api0 : ApiM :=
  { num_sets := 8, sets := fun _ => ⟨9⟩, tile_image := fun _ _ => none }

/-- Concrete api for the loading scenario: all image fetches succeed with raw
size 500 by 220. -/
def api_ok : ApiM :=
  { num_sets := 8, sets := fun _ => ⟨9⟩, tile_image := fun _ _ => some (500, 220) }

/-- The row of the loading scenario: one already-loaded entry, so that the
`ROW_STRIDE = 6` visible items need exactly 5 new images. -/
def scenario_row : SetRow :=
  { set_data := ⟨9⟩, true_set_idx := 0, cached_img_id := [⟨5, 100, 100⟩],
    left_right_idx_adjustment := 0 }

/-- Scenario tick 1: a fresh scheduler (`single_loop_load_count = 0`) populates
the six visible items of `scenario_row`. -/
def scenario_t1 : SetRow × DispCtrlImgData × ImgLoadingNotifier :=
  populate_row_pass api_ok (itemIdxs 0 ROW_STRIDE)
    (scenario_row, ⟨10, 0⟩, ⟨false, 0, none⟩) 0

/-- Scenario tick 2, after a reset whose cooldown has elapsed. -/
def scenario_t2 : SetRow × DispCtrlImgData × ImgLoadingNotifier :=
  populate_row_pass api_ok (itemIdxs 0 ROW_STRIDE)
    (scenario_t1.1, scenario_t1.2.1, scenario_t1.2.2.reset 1000) 1000

/-- Scenario tick 3. -/
def scenario_t3 : SetRow × DispCtrlImgData × ImgLoadingNotifier :=
  populate_row_pass api_ok (itemIdxs 0 ROW_STRIDE)
    (scenario_t2.1, scenario_t2.2.1, scenario_t2.2.2.reset 2000) 2000

/-- A sequence of `move_to_next_set` presses (one per listed timestamp). -/
def movesDown (api : ApiM) : List Nat → ControllerState → ControllerState
  | [], st => st
  | now :: rest, st =>
      movesDown api rest (DisplayController.move_to_next_set api st now)

/-- A sequence of `move_to_prev_set` presses (one per listed timestamp). -/
def movesUp (api : ApiM) : List Nat → ControllerState → ControllerState
  | [], st => st
  | now :: rest, st =>
      movesUp api rest (DisplayController.move_to_prev_set api st now)

/-- The state reached from startup (`api0`, 8 rows) by pressing Down seven
times: the cursor sits on the last row, `true_set_idx = 7`. -/
def c3_start : ControllerState :=
  movesDown api0 [0, 0, 0, 0, 0, 0, 0] (startState api0 0)

/-- Does a range contain an index. -/
def NatRange.contains (rg : NatRange) (i : Nat) : Prop :=
  rg.start ≤ i ∧ i < rg.stop

/-- A visible range of the shape every reachable state has: exactly
`NUM_ROWS` long. -/
def WfRange (st : ControllerState) : Prop :=
  st.prev_visible_range.stop = st.prev_visible_range.start + NUM_ROWS

/-- Relation between the (image data, notifier) pair before and after a block
of code that only loads images through `populate_cache_if_needed`: the load
count is monotone, it never passes `SINGLE_LOOP_MAX_LOAD` without having
started above it, and each fetch attempt bumps the count by exactly one. -/
def LoadDelta (img : DispCtrlImgData) (n : ImgLoadingNotifier)
    (img' : DispCtrlImgData) (n' : ImgLoadingNotifier) : Prop :=
  n.single_loop_load_count ≤ n'.single_loop_load_count ∧
  (n'.single_loop_load_count ≤ n.single_loop_load_count ∨
    n'.single_loop_load_count ≤ SINGLE_LOOP_MAX_LOAD) ∧
  img'.fetch_attempts + n.single_loop_load_count =
    img.fetch_attempts + n'.single_loop_load_count

/-- The hit condition of the positional ring: the home slot holds an entry
whose stored index matches. -/
def RowHit (rows : List SetRow) (t : Nat) : Prop :=
  ∃ r, rows[t % BUFFERED_ROWS]? = some r ∧ r.true_set_idx = t

/-- The big record update_image_widgets hands to `update_rows_go`. -/
def updateAcc0 (st : ControllerState) : UpdateAcc :=
  ⟨st.rows, st.disp_ctrl_img_data, st.notifier, none⟩

/-- The band pair list `update_image_widgets` iterates over. -/
def updateBand (st : ControllerState) : List (Nat × Nat) :=
  bandPairs 0
    (DisplayController.visible_set_range st.prev_visible_range
      st.cursor.true_set_idx).start
    ((DisplayController.visible_set_range st.prev_visible_range
      st.cursor.true_set_idx).stop -
      (DisplayController.visible_set_range st.prev_visible_range
        st.cursor.true_set_idx).start)

set_option maxHeartbeats 1000000 in

/-- The standing shape of the `rows` ring: at most `BUFFERED_ROWS` entries,
every entry sits at its home slot, every entry's `row_offset` is covered by
its item cache, and while the ring has not wrapped yet (length below
capacity) the entries are exactly rows `0..len-1` in order. -/
def GoodRows (rows : List SetRow) : Prop :=
  rows.length ≤ BUFFERED_ROWS ∧
  (∀ i : Nat, ∀ r : SetRow, rows[i]? = some r →
    r.true_set_idx % BUFFERED_ROWS = i ∧
    r.left_right_idx_adjustment ≤ r.cached_img_id.length) ∧
  (rows.length < BUFFERED_ROWS → ∀ i : Nat, ∀ r : SetRow, rows[i]? = some r →
    r.true_set_idx = i)

/-- The state facts needed going INTO `update_image_widgets`: a well-formed
ring, at least `NUM_ROWS` rows, an in-range cursor set, a `NUM_ROWS`-wide
previous band, and a cursor row at its home slot whose window contains the
cursor's true item. -/
def PreInv (api : ApiM) (st : ControllerState) : Prop :=
  GoodRows st.rows ∧
  NUM_ROWS ≤ st.rows.length ∧
  st.cursor.true_set_idx < api.num_sets ∧
  WfRange st ∧
  ∃ rc, st.rows[st.cursor.true_set_idx % BUFFERED_ROWS]? = some rc ∧
    rc.true_set_idx = st.cursor.true_set_idx ∧
    rc.left_right_idx_adjustment ≤ st.cursor.true_item_idx ∧
    st.cursor.true_item_idx <
      rc.left_right_idx_adjustment + ROW_STRIDE

/-- The full reachable-state invariant: `PreInv` strengthened with the cursor
arithmetic `true_item = adjusted_item + row_offset` and
`adjusted_item < ROW_STRIDE`. -/
def CtrlInv (api : ApiM) (st : ControllerState) : Prop :=
  GoodRows st.rows ∧
  NUM_ROWS ≤ st.rows.length ∧
  st.cursor.true_set_idx < api.num_sets ∧
  WfRange st ∧
  ∃ rc, st.rows[st.cursor.true_set_idx % BUFFERED_ROWS]? = some rc ∧
    rc.true_set_idx = st.cursor.true_set_idx ∧
    st.cursor.true_item_idx =
      st.cursor.adjusted_item_idx + rc.left_right_idx_adjustment ∧
    st.cursor.adjusted_item_idx < ROW_STRIDE ∧
    st.cursor.true_item_idx < rc.cached_img_id.length

/-- Rows matched by slot and identity change their `left_right_idx_adjustment`
by at most one. -/
def OffsetsNear (rows rows' : List SetRow) : Prop :=
  ∀ j : Nat, ∀ r r' : SetRow, rows[j]? = some r → rows'[j]? = some r' →
    r'.true_set_idx = r.true_set_idx →
    r.left_right_idx_adjustment ≤ r'.left_right_idx_adjustment + 1 ∧
    r'.left_right_idx_adjustment ≤ r.left_right_idx_adjustment + 1

/-! ## List helper lemmas -/

theorem list_get?_isSome_iff {α : Type} (l : List α) (j : Nat) :
    l[j]?.isSome = true ↔ j < l.length := by
  rcases Nat.lt_or_ge j l.length with h | h
  · simp [List.getElem?_eq_getElem h, h]
  · simp [List.getElem?_eq_none h]
    omega

theorem list_get?_set {α : Type} (l : List α) (i j : Nat) (a : α) :
    (l.set i a)[j]? = if i = j ∧ j < l.length then some a else l[j]? := by
  rw [List.getElem?_set]
  by_cases hij : i = j
  · by_cases hj : j < l.length
    · simp [hij, hj]
    · have h1 : l[j]? = none := List.getElem?_eq_none (by omega)
      simp [hij, hj, h1]
  · have h2 : ¬ (i = j ∧ j < l.length) := by tauto
    simp [hij, h2]

theorem list_get?_concat {α : Type} (l : List α) (a : α) (j : Nat) :
    (l ++ [a])[j]? =
      if j < l.length then l[j]?
      else if j = l.length then some a else none := by
  rw [List.getElem?_append]
  by_cases hj : j < l.length
  · simp [hj]
  · by_cases he : j = l.length
    · subst he
      simp
    · have h2 : ([a] : List α)[j - l.length]? = none := by
        apply List.getElem?_eq_none
        simp
        omega
      simp [hj, he, h2]

/-! ## `populate_cache_if_needed` lemmas -/

/-- `populate_cache_if_needed` only ever touches the item cache: the set data,
identity and `row_offset` of the row are untouched. -/
theorem populate_core (api : ApiM) (r : SetRow) (i : Nat)
    (img : DispCtrlImgData) (n : ImgLoadingNotifier) (now : Nat) :
    (r.populate_cache_if_needed api i img n now).1.set_data = r.set_data ∧
    (r.populate_cache_if_needed api i img n now).1.true_set_idx =
      r.true_set_idx ∧
    (r.populate_cache_if_needed api i img n now).1.left_right_idx_adjustment =
      r.left_right_idx_adjustment := by
  unfold SetRow.populate_cache_if_needed
  cases hc : r.cached_img_id[i]? <;> simp only [hc] <;> split <;>
    (try split) <;> simp

/-- The cache never shrinks and grows by at most one entry. -/
theorem populate_length (api : ApiM) (r : SetRow) (i : Nat)
    (img : DispCtrlImgData) (n : ImgLoadingNotifier) (now : Nat) :
    r.cached_img_id.length ≤
      (r.populate_cache_if_needed api i img n now).1.cached_img_id.length ∧
    (r.populate_cache_if_needed api i img n now).1.cached_img_id.length ≤
      r.cached_img_id.length + 1 := by
  unfold SetRow.populate_cache_if_needed
  cases hc : r.cached_img_id[i]? <;> simp only [hc] <;> split <;>
    (try split) <;> simp

/-- Called with an index at most the cache length (the only way `show` calls
it in reachable states), `populate_cache_if_needed` leaves an entry at that
index. -/
theorem populate_entry_at (api : ApiM) (r : SetRow) (i : Nat)
    (img : DispCtrlImgData) (n : ImgLoadingNotifier) (now : Nat)
    (h : i ≤ r.cached_img_id.length) :
    ((r.populate_cache_if_needed api i img n now).1.cached_img_id[i]?).isSome = true := by
  unfold SetRow.populate_cache_if_needed
  cases hc : r.cached_img_id[i]? with
  | some e =>
      have hi : i < r.cached_img_id.length :=
        (list_get?_isSome_iff r.cached_img_id i).mp (by rw [hc]; rfl)
      simp only [hc]
      split
      · simp [list_get?_set, hi]
      · split <;> simp [hc]
  | none =>
      have hi : i = r.cached_img_id.length := by
        rcases Nat.lt_or_ge i r.cached_img_id.length with hlt | hge
        · exfalso
          have h2 := (list_get?_isSome_iff r.cached_img_id i).mpr hlt
          rw [hc] at h2
          simp at h2
        · omega
      simp only [hc]
      split <;> simp [list_get?_concat, hi]

/-- Entries other than the requested one are untouched. -/
theorem populate_other (api : ApiM) (r : SetRow) (i : Nat)
    (img : DispCtrlImgData) (n : ImgLoadingNotifier) (now : Nat)
    (j : Nat) (hj : j < r.cached_img_id.length) (hne : j ≠ i) :
    (r.populate_cache_if_needed api i img n now).1.cached_img_id[j]? =
      r.cached_img_id[j]? := by
  have hne' : ¬ (i = j ∧ j < r.cached_img_id.length) := by tauto
  unfold SetRow.populate_cache_if_needed
  cases hc : r.cached_img_id[i]? <;> simp only [hc] <;> split <;>
    (try split) <;>
    first
      | rfl
      | (show (r.cached_img_id.set i _)[j]? = _
         rw [list_get?_set]
         simp [hne'])
      | (show (r.cached_img_id ++ [_])[j]? = _
         rw [list_get?_concat]
         simp [hj])

/-- Existing entries never disappear. -/
theorem populate_keeps (api : ApiM) (r : SetRow) (i : Nat)
    (img : DispCtrlImgData) (n : ImgLoadingNotifier) (now : Nat) (j : Nat)
    (h : r.cached_img_id[j]?.isSome = true) :
    ((r.populate_cache_if_needed api i img n now).1.cached_img_id[j]?).isSome =
      true := by
  have hj : j < r.cached_img_id.length := (list_get?_isSome_iff _ _).mp h
  by_cases hji : j = i
  · subst hji
    exact populate_entry_at api r j img n now (le_of_lt hj)
  · rw [populate_other api r i img n now j hj hji]
    exact h

theorem LoadDelta.refl (img : DispCtrlImgData) (n : ImgLoadingNotifier) :
    LoadDelta img n img n :=
  ⟨le_refl _, Or.inl (le_refl _), rfl⟩

theorem LoadDelta.trans {i1 i2 i3 : DispCtrlImgData}
    {n1 n2 n3 : ImgLoadingNotifier} (h12 : LoadDelta i1 n1 i2 n2)
    (h23 : LoadDelta i2 n2 i3 n3) : LoadDelta i1 n1 i3 n3 := by
  obtain ⟨a1, a2, a3⟩ := h12
  obtain ⟨b1, b2, b3⟩ := h23
  exact ⟨le_trans a1 b1, by omega, by omega⟩

/-- A single `populate_cache_if_needed` call satisfies `LoadDelta`. -/
theorem populate_load_delta (api : ApiM) (r : SetRow) (i : Nat)
    (img : DispCtrlImgData) (n : ImgLoadingNotifier) (now : Nat) :
    LoadDelta img n (r.populate_cache_if_needed api i img n now).2.1
      (r.populate_cache_if_needed api i img n now).2.2 := by
  unfold SetRow.populate_cache_if_needed
  cases hc : r.cached_img_id[i]? <;> simp only [hc]
  case none =>
    split
    · next hcan =>
        refine ⟨by simp [ImgLoadingNotifier.image_loaded], ?_, ?_⟩ <;>
          unfold SetRow.get_home_tile_or_not_found <;>
          cases api.tile_image r.true_set_idx i <;>
          simp [ImgLoadingNotifier.image_loaded] <;> omega
    · exact ⟨le_refl _, Or.inl (le_refl _), rfl⟩
  case some e =>
    split
    · next hcan =>
        refine ⟨by simp [ImgLoadingNotifier.image_loaded], ?_, ?_⟩ <;>
          unfold SetRow.get_home_tile_or_not_found <;>
          cases api.tile_image r.true_set_idx i <;>
          simp [ImgLoadingNotifier.image_loaded] <;> omega
    · split <;> exact ⟨le_refl _, Or.inl (le_refl _), rfl⟩

/-- A resolved (`Loaded` or `NotFound`) entry is terminal: `populate` does
nothing at all for it — no cache change, no image-map change, no fetch
attempt, no notifier change. -/
theorem populate_terminal (api : ApiM) (r : SetRow) (i : Nat)
    (img : DispCtrlImgData) (n : ImgLoadingNotifier) (now : Nat)
    (e : CachedImgData) (he : r.cached_img_id[i]? = some e)
    (hid : e.img_id ≠ placeholder_img_id) :
    r.populate_cache_if_needed api i img n now = (r, img, n) := by
  unfold SetRow.populate_cache_if_needed
  simp only [he]
  have h1 : ¬ (e.img_id = placeholder_img_id ∧
      n.single_loop_load_count < SINGLE_LOOP_MAX_LOAD) := by tauto
  have h2 : ¬ (e.img_id = placeholder_img_id ∧
      ¬ n.single_loop_load_count < SINGLE_LOOP_MAX_LOAD) := by tauto
  simp [h1, h2]
  intro h
  exact absurd h hid

/-- With the budget exhausted and no entry present, `populate` appends a
placeholder entry of the fixed fallback dimensions and raises the
needs-more-load flag (and fetches nothing). -/
theorem populate_exhausted (api : ApiM) (r : SetRow) (i : Nat)
    (img : DispCtrlImgData) (n : ImgLoadingNotifier) (now : Nat)
    (he : r.cached_img_id[i]? = none)
    (hb : ¬ n.single_loop_load_count < SINGLE_LOOP_MAX_LOAD) :
    r.populate_cache_if_needed api i img n now =
      ({ r with cached_img_id := r.cached_img_id ++
          [⟨placeholder_img_id, PLACEHOLDER_AND_NOT_FOUND_SCALED_W,
            PLACEHOLDER_AND_NOT_FOUND_SCALED_H⟩] },
        img, { n with needs_to_load := true }) := by
  unfold SetRow.populate_cache_if_needed
  simp [he, hb]

/-! ## `SetRow::show` lemmas -/

theorem show_item_parts (api : ApiM) (r : SetRow) (cursor : Cursor)
    (a_set a : Nat) (img : DispCtrlImgData) (n : ImgLoadingNotifier)
    (now : Nat) :
    (r.show_item api cursor a_set a img n now).row =
      (r.populate_cache_if_needed api (a + r.left_right_idx_adjustment)
        img n now).1 ∧
    (r.show_item api cursor a_set a img n now).img_data =
      (r.populate_cache_if_needed api (a + r.left_right_idx_adjustment)
        img n now).2.1 ∧
    (r.show_item api cursor a_set a img n now).notifier =
      (r.populate_cache_if_needed api (a + r.left_right_idx_adjustment)
        img n now).2.2 := by
  unfold SetRow.show_item
  exact ⟨rfl, rfl, rfl⟩

theorem show_item_hd_some (api : ApiM) (r : SetRow) (cursor : Cursor)
    (a_set a : Nat) (img : DispCtrlImgData) (n : ImgLoadingNotifier)
    (now : Nat)
    (hset : cursor.true_set_idx = r.true_set_idx)
    (hitem : cursor.true_item_idx = a + r.left_right_idx_adjustment)
    (hlen : a + r.left_right_idx_adjustment ≤ r.cached_img_id.length) :
    ∃ q w hh, (r.show_item api cursor a_set a img n now).highlighted =
      some ⟨q, w, hh, r.true_set_idx, a, a_set⟩ := by
  have hsome := populate_entry_at api r (a + r.left_right_idx_adjustment)
    img n now hlen
  obtain ⟨d, hd⟩ := Option.isSome_iff_exists.mp hsome
  have hcore := populate_core api r (a + r.left_right_idx_adjustment)
    img n now
  refine ⟨d.img_id, d.w, d.h, ?_⟩
  unfold SetRow.show_item
  simp only [hd, hcore.2.1, hset, hitem, and_self, if_true]

theorem show_item_hd_none (api : ApiM) (r : SetRow) (cursor : Cursor)
    (a_set a : Nat) (img : DispCtrlImgData) (n : ImgLoadingNotifier)
    (now : Nat)
    (hmiss : ¬ (cursor.true_set_idx = r.true_set_idx ∧
      cursor.true_item_idx = a + r.left_right_idx_adjustment)) :
    (r.show_item api cursor a_set a img n now).highlighted = none := by
  have hcore := populate_core api r (a + r.left_right_idx_adjustment)
    img n now
  unfold SetRow.show_item
  simp only []
  cases hd : (r.populate_cache_if_needed api
      (a + r.left_right_idx_adjustment) img n now).1.cached_img_id[a +
        r.left_right_idx_adjustment]? with
  | none => simp
  | some d =>
      simp only [hcore.2.1]
      rw [if_neg hmiss]

/-- Everything the row/cache invariants need to know about one pass of the
`for adjusted_item_idx in a..a+m` item loop over a single row. -/
theorem show_items_go_spec (api : ApiM) (cursor : Cursor) (a_set now : Nat) :
    ∀ (m a : Nat) (acc : ShowAcc),
      acc.row.left_right_idx_adjustment + a ≤ acc.row.cached_img_id.length →
      (show_items_go api cursor a_set now (itemIdxs a m) acc).row.set_data =
        acc.row.set_data ∧
      (show_items_go api cursor a_set now (itemIdxs a m) acc).row.true_set_idx =
        acc.row.true_set_idx ∧
      (show_items_go api cursor a_set now
        (itemIdxs a m) acc).row.left_right_idx_adjustment =
        acc.row.left_right_idx_adjustment ∧
      acc.row.cached_img_id.length ≤
        (show_items_go api cursor a_set now
          (itemIdxs a m) acc).row.cached_img_id.length ∧
      acc.row.left_right_idx_adjustment + a + m ≤
        (show_items_go api cursor a_set now
          (itemIdxs a m) acc).row.cached_img_id.length ∧
      (∀ j : Nat, acc.row.cached_img_id[j]?.isSome = true →
        ((show_items_go api cursor a_set now
          (itemIdxs a m) acc).row.cached_img_id[j]?).isSome = true) ∧
      (∀ j : Nat, acc.row.left_right_idx_adjustment + a ≤ j →
        j < acc.row.left_right_idx_adjustment + a + m →
        ((show_items_go api cursor a_set now
          (itemIdxs a m) acc).row.cached_img_id[j]?).isSome = true) ∧
      LoadDelta acc.img_data acc.notifier
        (show_items_go api cursor a_set now (itemIdxs a m) acc).img_data
        (show_items_go api cursor a_set now (itemIdxs a m) acc).notifier ∧
      ((cursor.true_set_idx = acc.row.true_set_idx ∧
        acc.row.left_right_idx_adjustment + a ≤ cursor.true_item_idx ∧
        cursor.true_item_idx < acc.row.left_right_idx_adjustment + a + m) →
        ∃ q w hh,
          (show_items_go api cursor a_set now
            (itemIdxs a m) acc).highlighted =
          some ⟨q, w, hh, acc.row.true_set_idx,
            cursor.true_item_idx - acc.row.left_right_idx_adjustment,
            a_set⟩) ∧
      ((cursor.true_set_idx ≠ acc.row.true_set_idx ∨
        cursor.true_item_idx < acc.row.left_right_idx_adjustment + a ∨
        acc.row.left_right_idx_adjustment + a + m ≤ cursor.true_item_idx) →
        (show_items_go api cursor a_set now (itemIdxs a m) acc).highlighted =
          acc.highlighted) := by
  intro m
  induction m with
  | zero =>
      intro a acc h
      have hr : show_items_go api cursor a_set now (itemIdxs a 0) acc = acc :=
        rfl
      rw [hr]
      refine ⟨rfl, rfl, rfl, le_refl _, by omega, fun j hj => hj,
        fun j h1 h2 => absurd h2 (by omega), LoadDelta.refl _ _,
        fun hcon => absurd hcon.2.2 (by omega), fun _ => rfl⟩
  | succ m ih =>
      intro a acc h
      set o := acc.row.left_right_idx_adjustment with ho
      -- one call of SetRow::show at adjusted item index a
      have hparts := show_item_parts api acc.row cursor a_set a acc.img_data
        acc.notifier now
      have hcore := populate_core api acc.row (a + o) acc.img_data
        acc.notifier now
      have hlen := populate_length api acc.row (a + o) acc.img_data
        acc.notifier now
      have hentry := populate_entry_at api acc.row (a + o) acc.img_data
        acc.notifier now (by omega)
      have hdelta := populate_load_delta api acc.row (a + o) acc.img_data
        acc.notifier now
      set s := acc.row.show_item api cursor a_set a acc.img_data
        acc.notifier now with hs
      set acc' : ShowAcc := ⟨s.row, s.img_data, s.notifier,
        if s.highlighted.isSome then s.highlighted else acc.highlighted⟩
        with hacc'
      have hrun : show_items_go api cursor a_set now (itemIdxs a (m + 1)) acc =
          show_items_go api cursor a_set now (itemIdxs (a + 1) m) acc' := by
        rfl
      have hslen : a + o < s.row.cached_img_id.length := by
        rw [hparts.1]
        exact (list_get?_isSome_iff _ _).mp hentry
      have hocore : s.row.left_right_idx_adjustment = o ∧
          s.row.true_set_idx = acc.row.true_set_idx ∧
          s.row.set_data = acc.row.set_data := by
        rw [hparts.1]
        exact ⟨hcore.2.2, hcore.2.1, hcore.1⟩
      have hih := ih (a + 1) acc' (by
        show acc'.row.left_right_idx_adjustment + (a + 1) ≤
          acc'.row.cached_img_id.length
        have : acc'.row = s.row := rfl
        rw [this, hocore.1]
        omega)
      obtain ⟨i1, i2, i3, i4, i5, i6, i7, i8, i9, i10⟩ := hih
      have hacc'row : acc'.row = s.row := rfl
      rw [hrun]
      rw [hacc'row] at i1 i2 i3 i4 i5 i6 i7 i9 i10
      rw [hocore.1] at i3 i5 i7 i9 i10
      rw [hocore.2.1] at i2 i9 i10
      refine ⟨by rw [i1, hocore.2.2], by rw [i2], by rw [i3], ?_, ?_,
        ?_, ?_, ?_, ?_, ?_⟩
      · -- length monotone
        have : acc.row.cached_img_id.length ≤ s.row.cached_img_id.length := by
          rw [hparts.1]
          exact hlen.1
        omega
      · -- length lower bound
        omega
      · -- existing entries survive
        intro j hj
        apply i6
        rw [hparts.1]
        exact populate_keeps api acc.row (a + o) acc.img_data acc.notifier
          now j hj
      · -- entries exist on the processed window
        intro j h1 h2
        by_cases hja : j = o + a
        · apply i6
          rw [hparts.1]
          rw [hja, Nat.add_comm o a]
          exact hentry
        · exact i7 j (by omega) (by omega)
      · -- load counting
        have h1 : LoadDelta acc.img_data acc.notifier s.img_data
            s.notifier := by
          rw [hparts.2.1, hparts.2.2]
          exact hdelta
        exact LoadDelta.trans h1 i8
      · -- highlight found when the cursor item is inside the window
        rintro ⟨hcs, hlo, hhi⟩
        by_cases hit : cursor.true_item_idx = o + a
        · -- found at this very item; the tail of the loop keeps it
          obtain ⟨q, w, hh, hsome⟩ := show_item_hd_some api acc.row cursor
            a_set a acc.img_data acc.notifier now hcs (by omega) (by omega)
          have hkeep := i10 (Or.inr (Or.inl (by omega)))
          rw [hkeep]
          have : acc'.highlighted = s.highlighted := by
            show (if s.highlighted.isSome then s.highlighted
              else acc.highlighted) = s.highlighted
            rw [hsome]
            rfl
          rw [this, hsome]
          exact ⟨q, w, hh, by rw [hit]; simp [Nat.add_sub_cancel]⟩
        · -- found later in the loop
          obtain ⟨q, w, hh, hsome⟩ := i9 ⟨hcs, by omega, by omega⟩
          exact ⟨q, w, hh, hsome⟩
      · -- highlight untouched when the cursor item is outside the window
        intro hcon
        have hnone : s.highlighted = none := by
          apply show_item_hd_none
          rintro ⟨hcs, hitem⟩
          rcases hcon with hne | hlt | hge
          · exact hne hcs
          · omega
          · omega
        have : acc'.highlighted = acc.highlighted := by
          show (if s.highlighted.isSome then s.highlighted
            else acc.highlighted) = acc.highlighted
          rw [hnone]
          rfl
        rw [← this]
        apply i10
        rcases hcon with hne | hlt | hge
        · exact Or.inl hne
        · exact Or.inr (Or.inl (by omega))
        · exact Or.inr (Or.inr (by omega))

/-! ## `fetch_row` lemmas -/

theorem fetch_row_hit (api : ApiM) (rows : List SetRow) (t : Nat) (r : SetRow)
    (h1 : rows[t % BUFFERED_ROWS]? = some r) (h2 : r.true_set_idx = t) :
    DisplayController.fetch_row api rows t =
      ⟨rows, some (t % BUFFERED_ROWS, r), false⟩ := by
  unfold DisplayController.fetch_row
  simp [h1, h2]

theorem fetch_row_miss_none (api : ApiM) (rows : List SetRow) (t : Nat)
    (hmiss : ¬ RowHit rows t) (hnone : api.get_set t = none) :
    DisplayController.fetch_row api rows t = ⟨rows, none, true⟩ := by
  unfold DisplayController.fetch_row DisplayController.fetch_row_miss
  cases h : rows[t % BUFFERED_ROWS]? with
  | none => simp [hnone]
  | some r =>
      have hne : r.true_set_idx ≠ t := fun he => hmiss ⟨r, h, he⟩
      simp [h, hne, hnone]

theorem fetch_row_miss_store (api : ApiM) (rows : List SetRow) (t : Nat)
    (d : SetDataM) (hmiss : ¬ RowHit rows t) (hsome : api.get_set t = some d)
    (hle : t % BUFFERED_ROWS ≤ rows.length) :
    DisplayController.fetch_row api rows t =
      ⟨if t % BUFFERED_ROWS = rows.length then rows ++ [SetRow.new d t]
        else rows.set (t % BUFFERED_ROWS) (SetRow.new d t),
        some (t % BUFFERED_ROWS, SetRow.new d t), true⟩ := by
  have hmain : DisplayController.fetch_row_miss api rows t =
      ⟨if t % BUFFERED_ROWS = rows.length then rows ++ [SetRow.new d t]
        else rows.set (t % BUFFERED_ROWS) (SetRow.new d t),
        some (t % BUFFERED_ROWS, SetRow.new d t), true⟩ := by
    unfold DisplayController.fetch_row_miss
    rw [hsome]
    by_cases heq : t % BUFFERED_ROWS = rows.length
    · have hge : t % BUFFERED_ROWS ≥ rows.length := by omega
      have hlt : t % BUFFERED_ROWS < (rows ++ [SetRow.new d t]).length := by
        simp
        omega
      simp [hge, hlt, heq]
    · have hlt0 : t % BUFFERED_ROWS < rows.length := by omega
      have hge : ¬ t % BUFFERED_ROWS ≥ rows.length := by omega
      have hlt : t % BUFFERED_ROWS <
          (rows.set (t % BUFFERED_ROWS) (SetRow.new d t)).length := by
        simp
        omega
      simp [hge, hlt, heq]
  unfold DisplayController.fetch_row
  cases h : rows[t % BUFFERED_ROWS]? with
  | none => exact hmain
  | some r =>
      have hne : r.true_set_idx ≠ t := fun he => hmiss ⟨r, h, he⟩
      simp only [if_neg hne]
      exact hmain

/-- On a miss, `fetch_row` is its miss path. -/
theorem fetch_row_of_miss (api : ApiM) (rows : List SetRow) (t : Nat)
    (hmiss : ¬ RowHit rows t) :
    DisplayController.fetch_row api rows t =
      DisplayController.fetch_row_miss api rows t := by
  unfold DisplayController.fetch_row
  cases h : rows[t % BUFFERED_ROWS]? with
  | none => rfl
  | some r =>
      have hne : r.true_set_idx ≠ t := fun he => hmiss ⟨r, h, he⟩
      simp only [if_neg hne]

/-- The miss path always consults the data source. -/
theorem fetch_row_miss_queried (api : ApiM) (rows : List SetRow) (t : Nat) :
    (DisplayController.fetch_row_miss api rows t).queried = true := by
  unfold DisplayController.fetch_row_miss
  cases api.get_set t with
  | none => rfl
  | some d =>
      simp only []
      split <;> split <;> rfl

/-- The ghost `queried` flag is `false` exactly on a ring hit. -/
theorem fetch_row_queried_iff (api : ApiM) (rows : List SetRow) (t : Nat) :
    (DisplayController.fetch_row api rows t).queried = false ↔
      RowHit rows t := by
  constructor
  · intro hq
    by_contra hmiss
    rw [fetch_row_of_miss api rows t hmiss, fetch_row_miss_queried] at hq
    cases hq
  · rintro ⟨r, h1, h2⟩
    rw [fetch_row_hit api rows t r h1 h2]

/-! ## `update_image_widgets` projection lemmas -/

/-- `update_image_widgets` never moves the cursor's true indices; it only
refreshes `adjusted_item_idx` from the highlighted item. -/
theorem update_image_widgets_cursor (api : ApiM) (st : ControllerState)
    (now : Nat) :
    (DisplayController.update_image_widgets api st now).cursor.true_set_idx =
      st.cursor.true_set_idx ∧
    (DisplayController.update_image_widgets api st now).cursor.true_item_idx =
      st.cursor.true_item_idx ∧
    (DisplayController.update_image_widgets api st now).prev_visible_range =
      DisplayController.visible_set_range st.prev_visible_range
        st.cursor.true_set_idx := by
  unfold DisplayController.update_image_widgets
  simp only []
  split <;> exact ⟨rfl, rfl, rfl⟩

/-! ## Claim theorems: pure functional claims -/

/-- C6: the visible-band computation returns the previous band unchanged
exactly when the new cursor row is one greater than the previous band's
start; otherwise it recomputes the band as `shift..shift+NUM_ROWS` with
`shift = max 0 (true_row + 2 - NUM_ROWS)` (the truncated `Nat` subtraction
`true_row + 2 - NUM_ROWS` is exactly that max). -/
theorem visible_set_range_spec (prev : NatRange) (true_row : Nat) :
    DisplayController.visible_set_range prev true_row =
      if true_row = prev.start + 1 then prev
      else ⟨true_row + 2 - NUM_ROWS, (true_row + 2 - NUM_ROWS) + NUM_ROWS⟩ := by
  unfold DisplayController.visible_set_range
  by_cases h : true_row = prev.start + 1
  · rw [if_pos (by omega), if_pos h]
  · rw [if_neg (by omega), if_neg h]
    split
    · rfl
    · have h0 : true_row + 2 - NUM_ROWS = 0 := by
        unfold NUM_ROWS at *
        omega
      rw [h0]
      simp

/-- C2: `shift_right` is a no-op returning `false` at the end of the row's
real items; otherwise it returns `true` and bumps `row_offset` by one exactly
when `adjusted + 4 > ROW_STRIDE`; and `move_current_set_right` leaves
`true_item_idx` unchanged whenever `true_item_idx + 1` reaches the row's
item count. -/
theorem shift_right_move_right_spec :
    (∀ (r : SetRow) (a t : Nat), t + 1 ≥ r.set_data.get_item_count →
      r.shift_right a t = (r, false)) ∧
    (∀ (r : SetRow) (a t : Nat), t + 1 < r.set_data.get_item_count →
      (r.shift_right a t).2 = true ∧
      (r.shift_right a t).1.left_right_idx_adjustment =
        r.left_right_idx_adjustment +
          (if a + 4 > ROW_STRIDE then 1 else 0)) ∧
    (∀ (api : ApiM) (st : ControllerState) (now i : Nat) (r : SetRow),
      (DisplayController.fetch_row api st.rows
        st.cursor.true_set_idx).found = some (i, r) →
      st.cursor.true_item_idx + 1 ≥ r.set_data.get_item_count →
      (DisplayController.move_current_set_right api st
        now).cursor.true_item_idx = st.cursor.true_item_idx) := by
  refine ⟨?_, ?_, ?_⟩
  · intro r a t h
    unfold SetRow.shift_right
    rw [if_neg (by omega)]
  · intro r a t h
    unfold SetRow.shift_right
    rw [if_pos (by omega)]
    refine ⟨rfl, ?_⟩
    split <;> simp
  · intro api st now i r hf h
    unfold DisplayController.move_current_set_right
    simp only [hf]
    have hsh : r.shift_right st.cursor.adjusted_item_idx
        st.cursor.true_item_idx = (r, false) := by
      unfold SetRow.shift_right
      rw [if_neg (by omega)]
    rw [hsh]
    simp only [if_neg (by simp : ¬ (false = true))]
    exact (update_image_widgets_cursor api _ now).2.1

/-- C8: a failed image fetch is recorded as a `NotFound` entry (the shared
not-found texture) with the fixed fallback dimensions; an entry that is not a
placeholder is terminal — `populate_cache_if_needed` changes nothing and
fetches nothing for it; and a populate call never touches any cache slot other
than the one it was asked about. -/
theorem not_found_terminal_spec :
    (∀ (api : ApiM) (r : SetRow) (i : Nat) (img : DispCtrlImgData),
      api.tile_image r.true_set_idx i = none →
      (r.get_home_tile_or_not_found api i img).1 =
        ⟨nf_img_id, PLACEHOLDER_AND_NOT_FOUND_SCALED_W,
          PLACEHOLDER_AND_NOT_FOUND_SCALED_H⟩) ∧
    (∀ (api : ApiM) (r : SetRow) (i : Nat) (img : DispCtrlImgData)
      (n : ImgLoadingNotifier) (now : Nat) (e : CachedImgData),
      r.cached_img_id[i]? = some e → e.img_id ≠ placeholder_img_id →
      r.populate_cache_if_needed api i img n now = (r, img, n)) ∧
    (∀ (api : ApiM) (r : SetRow) (i : Nat) (img : DispCtrlImgData)
      (n : ImgLoadingNotifier) (now j : Nat),
      j < r.cached_img_id.length → j ≠ i →
      (r.populate_cache_if_needed api i img n now).1.cached_img_id[j]? =
        r.cached_img_id[j]?) := by
  refine ⟨?_, ?_, ?_⟩
  · intro api r i img h
    unfold SetRow.get_home_tile_or_not_found
    rw [h]
  · intro api r i img n now e he hid
    exact populate_terminal api r i img n now e he hid
  · intro api r i img n now j hj hne
    exact populate_other api r i img n now j hj hne

/-- C5: `fetch_row` returns the stored row without consulting the data source
exactly when the home slot `true_row mod BUFFERED_ROWS` holds an entry with a
matching stored index; on a miss it queries the source and, when the row
exists, stores a fresh `SetRow` (empty item cache, zero `row_offset`) at the
home slot, so that resolving the same row again immediately afterwards is a
hit with no re-fetch and no change to the stored rows.  The hypothesis
`t % BUFFERED_ROWS ≤ rows.length` holds in every reachable state (the ring
invariant theorem). -/
theorem fetch_row_cache_spec (api : ApiM) (rows : List SetRow) (t : Nat)
    (hle : t % BUFFERED_ROWS ≤ rows.length) :
    ((DisplayController.fetch_row api rows t).queried = false ↔
      RowHit rows t) ∧
    (∀ r : SetRow, rows[t % BUFFERED_ROWS]? = some r → r.true_set_idx = t →
      DisplayController.fetch_row api rows t =
        ⟨rows, some (t % BUFFERED_ROWS, r), false⟩) ∧
    (∀ d : SetDataM, ¬ RowHit rows t → api.get_set t = some d →
      (SetRow.new d t).cached_img_id = [] ∧
      (SetRow.new d t).left_right_idx_adjustment = 0 ∧
      DisplayController.fetch_row api rows t =
        ⟨if t % BUFFERED_ROWS = rows.length then rows ++ [SetRow.new d t]
          else rows.set (t % BUFFERED_ROWS) (SetRow.new d t),
          some (t % BUFFERED_ROWS, SetRow.new d t), true⟩ ∧
      DisplayController.fetch_row api
          (DisplayController.fetch_row api rows t).rows t =
        ⟨(DisplayController.fetch_row api rows t).rows,
          some (t % BUFFERED_ROWS, SetRow.new d t), false⟩) := by
  refine ⟨fetch_row_queried_iff api rows t, ?_, ?_⟩
  · intro r h1 h2
    exact fetch_row_hit api rows t r h1 h2
  · intro d hmiss hd
    have hstore := fetch_row_miss_store api rows t d hmiss hd hle
    refine ⟨rfl, rfl, hstore, ?_⟩
    have hrows1 : (DisplayController.fetch_row api rows t).rows =
        (if t % BUFFERED_ROWS = rows.length then rows ++ [SetRow.new d t]
          else rows.set (t % BUFFERED_ROWS) (SetRow.new d t)) := by
      rw [hstore]
    rw [hrows1]
    apply fetch_row_hit
    · by_cases heq : t % BUFFERED_ROWS = rows.length
      · rw [if_pos heq, list_get?_concat]
        rw [if_neg (by omega), if_pos heq]
      · rw [if_neg heq, list_get?_set]
        rw [if_pos ⟨rfl, by omega⟩]
    · rfl

/-! ## Loop unfolding equations -/

theorem show_items_go_cons (api : ApiM) (cursor : Cursor)
    (a_set now a : Nat) (rest : List Nat) (acc : ShowAcc) :
    show_items_go api cursor a_set now (a :: rest) acc =
      show_items_go api cursor a_set now rest
        ⟨(acc.row.show_item api cursor a_set a acc.img_data
            acc.notifier now).row,
          (acc.row.show_item api cursor a_set a acc.img_data
            acc.notifier now).img_data,
          (acc.row.show_item api cursor a_set a acc.img_data
            acc.notifier now).notifier,
          if (acc.row.show_item api cursor a_set a acc.img_data
              acc.notifier now).highlighted.isSome then
            (acc.row.show_item api cursor a_set a acc.img_data
              acc.notifier now).highlighted
          else acc.highlighted⟩ := rfl

theorem update_rows_go_cons_none (api : ApiM) (cursor : Cursor) (now : Nat)
    (a_set t : Nat) (rest : List (Nat × Nat)) (acc : UpdateAcc)
    (hf : (DisplayController.fetch_row api acc.rows t).found = none) :
    update_rows_go api cursor now ((a_set, t) :: rest) acc =
      ⟨(DisplayController.fetch_row api acc.rows t).rows, acc.img_data,
        acc.notifier, acc.highlighted⟩ := by
  show (match (DisplayController.fetch_row api acc.rows t).found with
    | none =>
        (⟨(DisplayController.fetch_row api acc.rows t).rows, acc.img_data,
          acc.notifier, acc.highlighted⟩ : UpdateAcc)
    | some ir =>
        update_rows_go api cursor now rest
          ⟨(DisplayController.fetch_row api acc.rows t).rows.set ir.1
              (showRowPass api cursor a_set now ir.2 acc.img_data
                acc.notifier).row,
            (showRowPass api cursor a_set now ir.2 acc.img_data
              acc.notifier).img_data,
            (showRowPass api cursor a_set now ir.2 acc.img_data
              acc.notifier).notifier,
            if (showRowPass api cursor a_set now ir.2 acc.img_data
                acc.notifier).highlighted.isSome
            then (showRowPass api cursor a_set now ir.2 acc.img_data
                acc.notifier).highlighted
            else acc.highlighted⟩) = _
  rw [hf]

theorem update_rows_go_cons_some (api : ApiM) (cursor : Cursor) (now : Nat)
    (a_set t : Nat) (rest : List (Nat × Nat)) (acc : UpdateAcc)
    (i : Nat) (r : SetRow)
    (hf : (DisplayController.fetch_row api acc.rows t).found = some (i, r)) :
    update_rows_go api cursor now ((a_set, t) :: rest) acc =
      update_rows_go api cursor now rest
        ⟨(DisplayController.fetch_row api acc.rows t).rows.set i
            (showRowPass api cursor a_set now r acc.img_data
              acc.notifier).row,
          (showRowPass api cursor a_set now r acc.img_data
            acc.notifier).img_data,
          (showRowPass api cursor a_set now r acc.img_data
            acc.notifier).notifier,
          if (showRowPass api cursor a_set now r acc.img_data
              acc.notifier).highlighted.isSome
          then (showRowPass api cursor a_set now r acc.img_data
              acc.notifier).highlighted
          else acc.highlighted⟩ := by
  show (match (DisplayController.fetch_row api acc.rows t).found with
    | none =>
        (⟨(DisplayController.fetch_row api acc.rows t).rows, acc.img_data,
          acc.notifier, acc.highlighted⟩ : UpdateAcc)
    | some ir =>
        update_rows_go api cursor now rest
          ⟨(DisplayController.fetch_row api acc.rows t).rows.set ir.1
              (showRowPass api cursor a_set now ir.2 acc.img_data
                acc.notifier).row,
            (showRowPass api cursor a_set now ir.2 acc.img_data
              acc.notifier).img_data,
            (showRowPass api cursor a_set now ir.2 acc.img_data
              acc.notifier).notifier,
            if (showRowPass api cursor a_set now ir.2 acc.img_data
                acc.notifier).highlighted.isSome
            then (showRowPass api cursor a_set now ir.2 acc.img_data
                acc.notifier).highlighted
            else acc.highlighted⟩) = _
  rw [hf]

theorem update_image_widgets_parts (api : ApiM) (st : ControllerState)
    (now : Nat) :
    (DisplayController.update_image_widgets api st
      now).disp_ctrl_img_data =
      (update_rows_go api st.cursor now (updateBand st)
        (updateAcc0 st)).img_data ∧
    (DisplayController.update_image_widgets api st now).notifier =
      (update_rows_go api st.cursor now (updateBand st)
        (updateAcc0 st)).notifier := by
  unfold DisplayController.update_image_widgets updateBand updateAcc0
  simp only []
  split <;> exact ⟨rfl, rfl⟩

/-! ## Load-budget accounting -/

theorem show_items_go_load_delta (api : ApiM) (cursor : Cursor)
    (a_set now : Nat) :
    ∀ (items : List Nat) (acc : ShowAcc),
      LoadDelta acc.img_data acc.notifier
        (show_items_go api cursor a_set now items acc).img_data
        (show_items_go api cursor a_set now items acc).notifier := by
  intro items
  induction items with
  | nil => intro acc; exact LoadDelta.refl _ _
  | cons a rest ih =>
      intro acc
      rw [show_items_go_cons]
      have hparts := show_item_parts api acc.row cursor a_set a acc.img_data
        acc.notifier now
      have hdelta := populate_load_delta api acc.row
        (a + acc.row.left_right_idx_adjustment) acc.img_data acc.notifier now
      refine LoadDelta.trans ?_ (ih _)
      show LoadDelta acc.img_data acc.notifier
        (acc.row.show_item api cursor a_set a acc.img_data
          acc.notifier now).img_data
        (acc.row.show_item api cursor a_set a acc.img_data
          acc.notifier now).notifier
      rw [hparts.2.1, hparts.2.2]
      exact hdelta

theorem showRowPass_load_delta (api : ApiM) (cursor : Cursor)
    (a_set now : Nat) (r : SetRow) (img : DispCtrlImgData)
    (n : ImgLoadingNotifier) :
    LoadDelta img n (showRowPass api cursor a_set now r img n).img_data
      (showRowPass api cursor a_set now r img n).notifier :=
  show_items_go_load_delta api cursor a_set now (itemIdxs 0 ROW_STRIDE)
    ⟨r, img, n, none⟩

set_option maxHeartbeats 1000000 in
theorem update_rows_go_load_delta (api : ApiM) (cursor : Cursor) (now : Nat) :
    ∀ (pairs : List (Nat × Nat)) (acc : UpdateAcc),
      LoadDelta acc.img_data acc.notifier
        (update_rows_go api cursor now pairs acc).img_data
        (update_rows_go api cursor now pairs acc).notifier := by
  intro pairs
  induction pairs with
  | nil => intro acc; exact LoadDelta.refl _ _
  | cons p rest ih =>
      intro acc
      obtain ⟨a_set, t⟩ := p
      cases hf : (DisplayController.fetch_row api acc.rows t).found with
      | none =>
          rw [update_rows_go_cons_none api cursor now a_set t rest acc hf]
          exact LoadDelta.refl _ _
      | some ir =>
          have hf2 : (DisplayController.fetch_row api acc.rows t).found =
              some (ir.1, ir.2) := by rw [hf]
          rw [update_rows_go_cons_some api cursor now a_set t rest acc
            ir.1 ir.2 hf2]
          have hmid := showRowPass_load_delta api cursor a_set now ir.2
            acc.img_data acc.notifier
          have htail := ih ⟨(DisplayController.fetch_row api
                acc.rows t).rows.set ir.1
                (showRowPass api cursor a_set now ir.2 acc.img_data
                  acc.notifier).row,
              (showRowPass api cursor a_set now ir.2 acc.img_data
                acc.notifier).img_data,
              (showRowPass api cursor a_set now ir.2 acc.img_data
                acc.notifier).notifier,
              if (showRowPass api cursor a_set now ir.2 acc.img_data
                  acc.notifier).highlighted.isSome
              then (showRowPass api cursor a_set now ir.2 acc.img_data
                  acc.notifier).highlighted
              else acc.highlighted⟩
          dsimp only [] at htail
          exact LoadDelta.trans hmid htail

theorem update_image_widgets_load_delta (api : ApiM) (st : ControllerState)
    (now : Nat) :
    LoadDelta st.disp_ctrl_img_data st.notifier
      (DisplayController.update_image_widgets api st now).disp_ctrl_img_data
      (DisplayController.update_image_widgets api st now).notifier := by
  have hparts := update_image_widgets_parts api st now
  rw [hparts.1, hparts.2]
  exact update_rows_go_load_delta api st.cursor now (updateBand st)
    (updateAcc0 st)

theorem move_left_load_delta (api : ApiM) (st : ControllerState) (now : Nat) :
    LoadDelta st.disp_ctrl_img_data st.notifier
      (DisplayController.move_current_set_left api st
        now).disp_ctrl_img_data
      (DisplayController.move_current_set_left api st now).notifier := by
  unfold DisplayController.move_current_set_left
  simp only []
  cases hf : (DisplayController.fetch_row api st.rows
      st.cursor.true_set_idx).found with
  | none => exact LoadDelta.refl _ _
  | some ir =>
      have h := update_image_widgets_load_delta api
        { st with
          rows := (DisplayController.fetch_row api st.rows
            st.cursor.true_set_idx).rows.set ir.1
              (ir.2.shift_left st.cursor.adjusted_item_idx)
          cursor :=
            if st.cursor.true_item_idx > 0 then
              { st.cursor with
                true_item_idx := st.cursor.true_item_idx - 1 }
            else st.cursor } now
      dsimp only [] at h
      exact h

theorem move_right_load_delta (api : ApiM) (st : ControllerState)
    (now : Nat) :
    LoadDelta st.disp_ctrl_img_data st.notifier
      (DisplayController.move_current_set_right api st
        now).disp_ctrl_img_data
      (DisplayController.move_current_set_right api st now).notifier := by
  unfold DisplayController.move_current_set_right
  simp only []
  cases hf : (DisplayController.fetch_row api st.rows
      st.cursor.true_set_idx).found with
  | none => exact LoadDelta.refl _ _
  | some ir =>
      have h := update_image_widgets_load_delta api
        { st with
          rows := (DisplayController.fetch_row api st.rows
            st.cursor.true_set_idx).rows.set ir.1
              (ir.2.shift_right st.cursor.adjusted_item_idx
                st.cursor.true_item_idx).1
          cursor :=
            if (ir.2.shift_right st.cursor.adjusted_item_idx
                st.cursor.true_item_idx).2 then
              { st.cursor with
                true_item_idx := st.cursor.true_item_idx + 1 }
            else st.cursor } now
      dsimp only [] at h
      exact h

theorem move_up_load_delta (api : ApiM) (st : ControllerState) (now : Nat) :
    LoadDelta st.disp_ctrl_img_data st.notifier
      (DisplayController.move_to_prev_set api st now).disp_ctrl_img_data
      (DisplayController.move_to_prev_set api st now).notifier := by
  unfold DisplayController.move_to_prev_set
  simp only []
  split
  · cases hf : (DisplayController.fetch_row api st.rows
        (st.cursor.true_set_idx - 1)).found with
    | none =>
        have h := update_image_widgets_load_delta api
          { st with
            rows := (DisplayController.fetch_row api st.rows
              (st.cursor.true_set_idx - 1)).rows
            cursor := { st.cursor with
              true_set_idx := st.cursor.true_set_idx - 1 } } now
        dsimp only [] at h
        exact h
    | some ir =>
        have h := update_image_widgets_load_delta api
          { st with
            rows := (DisplayController.fetch_row api st.rows
              (st.cursor.true_set_idx - 1)).rows
            cursor :=
              { true_set_idx := st.cursor.true_set_idx - 1
                true_item_idx := st.cursor.adjusted_item_idx +
                  ir.2.left_right_idx_adjustment
                adjusted_item_idx := st.cursor.adjusted_item_idx } } now
        dsimp only [] at h
        exact h
  · have h := update_image_widgets_load_delta api st now
    exact h

theorem move_down_load_delta (api : ApiM) (st : ControllerState) (now : Nat) :
    LoadDelta st.disp_ctrl_img_data st.notifier
      (DisplayController.move_to_next_set api st now).disp_ctrl_img_data
      (DisplayController.move_to_next_set api st now).notifier := by
  unfold DisplayController.move_to_next_set
  simp only []
  split
  · cases hf : (DisplayController.fetch_row api st.rows
        (st.cursor.true_set_idx + 1)).found with
    | none =>
        have h := update_image_widgets_load_delta api
          { st with
            rows := (DisplayController.fetch_row api st.rows
              (st.cursor.true_set_idx + 1)).rows
            cursor := { st.cursor with
              true_set_idx := st.cursor.true_set_idx + 1 } } now
        dsimp only [] at h
        exact h
    | some ir =>
        have h := update_image_widgets_load_delta api
          { st with
            rows := (DisplayController.fetch_row api st.rows
              (st.cursor.true_set_idx + 1)).rows
            cursor :=
              { true_set_idx := st.cursor.true_set_idx + 1
                true_item_idx := st.cursor.adjusted_item_idx +
                  ir.2.left_right_idx_adjustment
                adjusted_item_idx := st.cursor.adjusted_item_idx } } now
        dsimp only [] at h
        exact h
  · have h := update_image_widgets_load_delta api st now
    exact h

theorem applyTickOp_load_delta (api : ApiM) (st : ControllerState)
    (op : TickOp) :
    LoadDelta st.disp_ctrl_img_data st.notifier
      (applyTickOp api st op).disp_ctrl_img_data
      (applyTickOp api st op).notifier := by
  cases op with
  | left now => exact move_left_load_delta api st now
  | right now => exact move_right_load_delta api st now
  | up now => exact move_up_load_delta api st now
  | down now => exact move_down_load_delta api st now
  | update now => exact update_image_widgets_load_delta api st now

theorem applyTickOps_load_delta (api : ApiM) :
    ∀ (ops : List TickOp) (st : ControllerState),
      LoadDelta st.disp_ctrl_img_data st.notifier
        (applyTickOps api ops st).disp_ctrl_img_data
        (applyTickOps api ops st).notifier := by
  intro ops
  induction ops with
  | nil => intro st; exact LoadDelta.refl _ _
  | cons op rest ih =>
      intro st
      exact LoadDelta.trans (applyTickOp_load_delta api st op) (ih _)

/-- C4: between two scheduler resets, any sequence of navigation and redraw
passes makes at most `SINGLE_LOOP_MAX_LOAD` image fetch attempts in total;
when the budget is exhausted and an item has no entry, a placeholder of the
fixed fallback dimensions is appended and the needs-more-load flag raised;
and concretely, a row needing 5 new images loads 2, 2, 1 across three ticks,
with 3 placeholder entries present after the first tick. -/
theorem load_budget_spec :
    (∀ (api : ApiM) (ops : List TickOp) (st : ControllerState),
      st.notifier.single_loop_load_count = 0 →
      (applyTickOps api ops st).disp_ctrl_img_data.fetch_attempts ≤
        st.disp_ctrl_img_data.fetch_attempts + SINGLE_LOOP_MAX_LOAD) ∧
    (∀ (api : ApiM) (r : SetRow) (i : Nat) (img : DispCtrlImgData)
      (n : ImgLoadingNotifier) (now : Nat),
      r.cached_img_id[i]? = none →
      ¬ n.single_loop_load_count < SINGLE_LOOP_MAX_LOAD →
      r.populate_cache_if_needed api i img n now =
        ({ r with cached_img_id := r.cached_img_id ++
            [⟨placeholder_img_id, PLACEHOLDER_AND_NOT_FOUND_SCALED_W,
              PLACEHOLDER_AND_NOT_FOUND_SCALED_H⟩] },
          img, { n with needs_to_load := true })) ∧
    (scenario_t1.2.2.single_loop_load_count = 2 ∧
      scenario_t1.2.1.fetch_attempts = 2 ∧
      placeholder_count scenario_t1.1.cached_img_id = 3 ∧
      scenario_t1.2.2.needs_to_load = true ∧
      scenario_t2.2.2.single_loop_load_count = 2 ∧
      scenario_t2.2.1.fetch_attempts = 4 ∧
      placeholder_count scenario_t2.1.cached_img_id = 1 ∧
      scenario_t3.2.2.single_loop_load_count = 1 ∧
      scenario_t3.2.1.fetch_attempts = 5 ∧
      placeholder_count scenario_t3.1.cached_img_id = 0) := by
  refine ⟨?_, ?_, ?_⟩
  · intro api ops st h0
    have hd := applyTickOps_load_delta api ops st
    obtain ⟨h1, h2, h3⟩ := hd
    rw [h0] at h2 h3
    unfold SINGLE_LOOP_MAX_LOAD at *
    omega
  · intro api r i img n now he hb
    exact populate_exhausted api r i img n now he hb
  · refine ⟨rfl, rfl, ?_, rfl, rfl, rfl, ?_, rfl, rfl, ?_⟩ <;> rfl

/-! ## Navigation step lemmas for the band and cursor -/

theorem visible_set_range_good (prev : NatRange) (c : Nat)
    (hwf : prev.stop = prev.start + NUM_ROWS) :
    (DisplayController.visible_set_range prev c).stop =
      (DisplayController.visible_set_range prev c).start + NUM_ROWS ∧
    (DisplayController.visible_set_range prev c).contains c := by
  unfold DisplayController.visible_set_range NatRange.contains
  split
  · next h =>
      have : c = prev.start + 1 := by omega
      refine ⟨hwf, by omega, ?_⟩
      unfold NUM_ROWS at hwf
      omega
  · split
    · next h2 =>
        refine ⟨rfl, ?_, ?_⟩ <;>
          (dsimp only []; unfold NUM_ROWS at *; omega)
    · next h2 =>
        refine ⟨rfl, ?_, ?_⟩ <;>
          (dsimp only []; unfold NUM_ROWS at *; omega)

theorem update_good (api : ApiM) (st : ControllerState) (now : Nat)
    (hwf : WfRange st) :
    WfRange (DisplayController.update_image_widgets api st now) ∧
    (DisplayController.update_image_widgets api st
      now).prev_visible_range.contains
      (DisplayController.update_image_widgets api st
        now).cursor.true_set_idx := by
  have hc := update_image_widgets_cursor api st now
  have hg := visible_set_range_good st.prev_visible_range
    st.cursor.true_set_idx hwf
  constructor
  · show (DisplayController.update_image_widgets api st
      now).prev_visible_range.stop = _
    rw [hc.2.2]
    exact hg.1
  · rw [hc.2.2, hc.1]
    exact hg.2

theorem move_down_step (api : ApiM) (st : ControllerState) (now : Nat)
    (hguard : st.cursor.true_set_idx + 1 < api.num_sets) :
    (DisplayController.move_to_next_set api st now).cursor.true_set_idx =
      st.cursor.true_set_idx + 1 ∧
    (WfRange st → WfRange (DisplayController.move_to_next_set api st now) ∧
      (DisplayController.move_to_next_set api st
        now).prev_visible_range.contains
        (DisplayController.move_to_next_set api st
          now).cursor.true_set_idx) := by
  unfold DisplayController.move_to_next_set
  rw [if_pos (by omega : st.cursor.true_set_idx < api.num_sets - 1)]
  simp only []
  cases hf : (DisplayController.fetch_row api st.rows
      (st.cursor.true_set_idx + 1)).found with
  | some ir =>
      have hc := update_image_widgets_cursor api
        { st with
          rows := (DisplayController.fetch_row api st.rows
            (st.cursor.true_set_idx + 1)).rows
          cursor :=
            { true_set_idx := st.cursor.true_set_idx + 1
              true_item_idx := st.cursor.adjusted_item_idx +
                ir.2.left_right_idx_adjustment
              adjusted_item_idx := st.cursor.adjusted_item_idx } } now
      dsimp only [] at hc
      refine ⟨hc.1, ?_⟩
      intro hwf
      have hu := update_good api
        { st with
          rows := (DisplayController.fetch_row api st.rows
            (st.cursor.true_set_idx + 1)).rows
          cursor :=
            { true_set_idx := st.cursor.true_set_idx + 1
              true_item_idx := st.cursor.adjusted_item_idx +
                ir.2.left_right_idx_adjustment
              adjusted_item_idx := st.cursor.adjusted_item_idx } } now hwf
      exact hu
  | none =>
      have hc := update_image_widgets_cursor api
        { st with
          rows := (DisplayController.fetch_row api st.rows
            (st.cursor.true_set_idx + 1)).rows
          cursor := { st.cursor with
            true_set_idx := st.cursor.true_set_idx + 1 } } now
      dsimp only [] at hc
      refine ⟨hc.1, ?_⟩
      intro hwf
      exact update_good api _ now hwf

theorem move_up_step (api : ApiM) (st : ControllerState) (now : Nat)
    (hguard : 0 < st.cursor.true_set_idx) :
    (DisplayController.move_to_prev_set api st now).cursor.true_set_idx =
      st.cursor.true_set_idx - 1 ∧
    (WfRange st → WfRange (DisplayController.move_to_prev_set api st now) ∧
      (DisplayController.move_to_prev_set api st
        now).prev_visible_range.contains
        (DisplayController.move_to_prev_set api st
          now).cursor.true_set_idx) := by
  unfold DisplayController.move_to_prev_set
  rw [if_pos (by omega : st.cursor.true_set_idx > 0)]
  simp only []
  cases hf : (DisplayController.fetch_row api st.rows
      (st.cursor.true_set_idx - 1)).found with
  | some ir =>
      have hc := update_image_widgets_cursor api
        { st with
          rows := (DisplayController.fetch_row api st.rows
            (st.cursor.true_set_idx - 1)).rows
          cursor :=
            { true_set_idx := st.cursor.true_set_idx - 1
              true_item_idx := st.cursor.adjusted_item_idx +
                ir.2.left_right_idx_adjustment
              adjusted_item_idx := st.cursor.adjusted_item_idx } } now
      dsimp only [] at hc
      refine ⟨hc.1, ?_⟩
      intro hwf
      exact update_good api _ now hwf
  | none =>
      have hc := update_image_widgets_cursor api
        { st with
          rows := (DisplayController.fetch_row api st.rows
            (st.cursor.true_set_idx - 1)).rows
          cursor := { st.cursor with
            true_set_idx := st.cursor.true_set_idx - 1 } } now
      dsimp only [] at hc
      refine ⟨hc.1, ?_⟩
      intro hwf
      exact update_good api _ now hwf

theorem movesDown_spec (api : ApiM) :
    ∀ (ds : List Nat) (st : ControllerState),
      st.cursor.true_set_idx + ds.length < api.num_sets →
      (movesDown api ds st).cursor.true_set_idx =
        st.cursor.true_set_idx + ds.length ∧
      (WfRange st → WfRange (movesDown api ds st)) := by
  intro ds
  induction ds with
  | nil => intro st h; exact ⟨rfl, fun hw => hw⟩
  | cons now rest ih =>
      intro st h
      have hstep := move_down_step api st now (by
        simp at h
        omega)
      have hrec := ih (DisplayController.move_to_next_set api st now) (by
        rw [hstep.1]
        simp at h ⊢
        omega)
      constructor
      · show (movesDown api rest
          (DisplayController.move_to_next_set api st now)).cursor.true_set_idx
          = _
        rw [hrec.1, hstep.1]
        simp
        omega
      · intro hwf
        exact hrec.2 ((hstep.2 hwf).1)

theorem movesUp_spec (api : ApiM) :
    ∀ (us : List Nat) (st : ControllerState),
      us.length ≤ st.cursor.true_set_idx →
      (movesUp api us st).cursor.true_set_idx =
        st.cursor.true_set_idx - us.length ∧
      (WfRange st → WfRange (movesUp api us st) ∧
        (us = [] →
          (movesUp api us st).prev_visible_range = st.prev_visible_range ∧
          (movesUp api us st).cursor = st.cursor) ∧
        (us ≠ [] →
          (movesUp api us st).prev_visible_range.contains
            (movesUp api us st).cursor.true_set_idx)) := by
  intro us
  induction us with
  | nil =>
      intro st h
      exact ⟨rfl, fun hw => ⟨hw, fun _ => ⟨rfl, rfl⟩, fun hne => absurd rfl hne⟩⟩
  | cons now rest ih =>
      intro st h
      simp at h
      have hstep := move_up_step api st now (by omega)
      have hrec := ih (DisplayController.move_to_prev_set api st now) (by
        rw [hstep.1]
        omega)
      constructor
      · show (movesUp api rest
          (DisplayController.move_to_prev_set api st now)).cursor.true_set_idx
          = _
        rw [hrec.1, hstep.1]
        simp
        omega
      · intro hwf
        have hgood := hstep.2 hwf
        have hrec2 := hrec.2 hgood.1
        refine ⟨hrec2.1, fun hne => absurd hne (List.cons_ne_nil now rest),
          fun _ => ?_⟩
        show (movesUp api rest
          (DisplayController.move_to_prev_set api st
            now)).prev_visible_range.contains
          (movesUp api rest
            (DisplayController.move_to_prev_set api st
              now)).cursor.true_set_idx
        by_cases hrest : rest = []
        · have hr := hrec2.2.1 hrest
          rw [hr.1, hr.2]
          exact hgood.2
        · exact hrec2.2.2 hrest

set_option maxRecDepth 10000 in
/-- C3 counterexample: from the reachable state with the cursor on the last
row (`true_set_idx = 7 = num_sets - 1`), one `move_down` followed by one
`move_up` leaves the cursor on row 6, not back on row 7: the claim fails for
starting states where a `move_down` saturates at the last row. -/
theorem down_up_counterexample :
    Reachable api0 c3_start ∧
    c3_start.cursor.true_set_idx = 7 ∧
    (movesUp api0 [0] (movesDown api0 [0]
      c3_start)).cursor.true_set_idx = 6 := by
  refine ⟨?_, rfl, rfl⟩
  have h0 : Reachable api0 (startState api0 0) := Reachable.start 0
  have h1 := Reachable.step h0 (Step.down _ 0)
  have h2 := Reachable.step h1 (Step.down _ 0)
  have h3 := Reachable.step h2 (Step.down _ 0)
  have h4 := Reachable.step h3 (Step.down _ 0)
  have h5 := Reachable.step h4 (Step.down _ 0)
  have h6 := Reachable.step h5 (Step.down _ 0)
  have h7 := Reachable.step h6 (Step.down _ 0)
  exact h7

/-- C3 amended: for every state whose visible range is well-formed (length
`NUM_ROWS`) and contains the cursor row — as in every reachable state — and
every pair of equal-length Down/Up sequences such that no `move_down`
saturates at the last dataset row (`true_row + n < dataset_row_count`),
`n` downs followed by `n` ups return `Cursor.true_set_idx` to its original
value and leave the visible range containing it. -/
theorem down_up_roundtrip (api : ApiM) (st : ControllerState)
    (ds us : List Nat) (hlen : ds.length = us.length)
    (hsat : st.cursor.true_set_idx + ds.length < api.num_sets)
    (hwf : WfRange st)
    (hcont : st.prev_visible_range.contains st.cursor.true_set_idx) :
    (movesUp api us (movesDown api ds st)).cursor.true_set_idx =
      st.cursor.true_set_idx ∧
    (movesUp api us (movesDown api ds st)).prev_visible_range.contains
      (movesUp api us (movesDown api ds st)).cursor.true_set_idx := by
  have hd := movesDown_spec api ds st hsat
  have hwf2 := hd.2 hwf
  have hu := movesUp_spec api us (movesDown api ds st) (by
    rw [hd.1]
    omega)
  constructor
  · rw [hu.1, hd.1]
    omega
  · have h2 := hu.2 hwf2
    by_cases hne : us = []
    · have hr := h2.2.1 hne
      rw [hr.1, hr.2]
      have hds : ds = [] := by
        cases ds with
        | nil => rfl
        | cons a b =>
            rw [hne] at hlen
            simp at hlen
      rw [hds]
      exact hcont
    · exact h2.2.2 hne

/-! ## Row-pass spec in `showRowPass` form -/

theorem showRowPass_eq (api : ApiM) (cursor : Cursor) (a_set now : Nat)
    (r : SetRow) (img : DispCtrlImgData) (n : ImgLoadingNotifier) :
    showRowPass api cursor a_set now r img n =
      show_items_go api cursor a_set now (itemIdxs 0 ROW_STRIDE)
        ⟨r, img, n, none⟩ := rfl

theorem showRowPass_spec (api : ApiM) (cursor : Cursor) (a_set now : Nat)
    (r : SetRow) (img : DispCtrlImgData) (n : ImgLoadingNotifier)
    (h : r.left_right_idx_adjustment ≤ r.cached_img_id.length) :
    (showRowPass api cursor a_set now r img n).row.set_data = r.set_data ∧
    (showRowPass api cursor a_set now r img n).row.true_set_idx =
      r.true_set_idx ∧
    (showRowPass api cursor a_set now r img
      n).row.left_right_idx_adjustment = r.left_right_idx_adjustment ∧
    r.cached_img_id.length ≤
      (showRowPass api cursor a_set now r img n).row.cached_img_id.length ∧
    (∀ j : Nat, r.left_right_idx_adjustment ≤ j →
      j < r.left_right_idx_adjustment + ROW_STRIDE →
      ((showRowPass api cursor a_set now r img
        n).row.cached_img_id[j]?).isSome = true) ∧
    ((cursor.true_set_idx = r.true_set_idx ∧
      r.left_right_idx_adjustment ≤ cursor.true_item_idx ∧
      cursor.true_item_idx < r.left_right_idx_adjustment + ROW_STRIDE) →
      ∃ q w hh, (showRowPass api cursor a_set now r img n).highlighted =
        some ⟨q, w, hh, r.true_set_idx,
          cursor.true_item_idx - r.left_right_idx_adjustment, a_set⟩) ∧
    ((cursor.true_set_idx ≠ r.true_set_idx ∨
      cursor.true_item_idx < r.left_right_idx_adjustment ∨
      r.left_right_idx_adjustment + ROW_STRIDE ≤ cursor.true_item_idx) →
      (showRowPass api cursor a_set now r img n).highlighted = none) := by
  have h0 := show_items_go_spec api cursor a_set now ROW_STRIDE 0
    ⟨r, img, n, none⟩ (by dsimp only []; omega)
  dsimp only [] at h0
  obtain ⟨g1, g2, g3, g4, g5, g6, g7, g8, g9, g10⟩ := h0
  rw [showRowPass_eq]
  refine ⟨g1, g2, g3, g4, ?_, ?_, ?_⟩
  · intro j h1 h2
    exact g7 j (by omega) (by omega)
  · rintro ⟨hc1, hc2, hc3⟩
    exact g9 ⟨hc1, by omega, by omega⟩
  · intro hcon
    rcases hcon with hne | hlt | hge
    · exact g10 (Or.inl hne)
    · exact g10 (Or.inr (Or.inl (by omega)))
    · exact g10 (Or.inr (Or.inr (by omega)))

/-! ## Ring-buffer invariant and master loop lemma -/

theorem goodrows_set (rows : List SetRow) (i : Nat) (r' : SetRow)
    (hG : GoodRows rows) (_hi : i < rows.length)
    (hslot : r'.true_set_idx % BUFFERED_ROWS = i)
    (hoff : r'.left_right_idx_adjustment ≤ r'.cached_img_id.length)
    (hpre : rows.length < BUFFERED_ROWS → r'.true_set_idx = i) :
    GoodRows (rows.set i r') := by
  obtain ⟨g1, g2, g3⟩ := hG
  refine ⟨by simp; omega, ?_, ?_⟩
  · intro j rr hj
    rw [list_get?_set] at hj
    split at hj
    · next hcond =>
        cases hj
        rw [← hcond.1]
        exact ⟨hslot, hoff⟩
    · exact g2 j rr hj
  · intro hlen j rr hj
    rw [List.length_set] at hlen
    rw [list_get?_set] at hj
    split at hj
    · next hcond =>
        cases hj
        rw [← hcond.1]
        exact hpre hlen
    · exact g3 hlen j rr hj

theorem goodrows_append (rows : List SetRow) (r' : SetRow)
    (hG : GoodRows rows) (hlen : rows.length < BUFFERED_ROWS)
    (htrue : r'.true_set_idx = rows.length)
    (hoff : r'.left_right_idx_adjustment ≤ r'.cached_img_id.length) :
    GoodRows (rows ++ [r']) := by
  obtain ⟨g1, g2, g3⟩ := hG
  have hB : BUFFERED_ROWS = 6 := rfl
  refine ⟨by simp; omega, ?_, ?_⟩
  · intro j rr hj
    rw [list_get?_concat] at hj
    split at hj
    · next hcond => exact g2 j rr hj
    · split at hj
      · next hc1 hc2 =>
          cases hj
          rw [htrue, hc2]
          constructor
          · simp only [hB] at hlen ⊢
            omega
          · exact hoff
      · cases hj
  · intro hl j rr hj
    rw [List.length_append] at hl
    rw [list_get?_concat] at hj
    split at hj
    · next hcond => exact g3 (by omega) j rr hj
    · split at hj
      · next hc1 hc2 =>
          cases hj
          rw [htrue, hc2]
      · cases hj

section MasterLoop

attribute [local irreducible] showRowPass

theorem update_rows_go_master (api : ApiM) (cursor : Cursor) (now : Nat) :
    ∀ (m a₀ t₀ : Nat) (acc : UpdateAcc),
      GoodRows acc.rows →
      (acc.rows.length < BUFFERED_ROWS → t₀ ≤ acc.rows.length) →
      m ≤ NUM_ROWS →
      (∀ k : Nat, k < m →
        (t₀ + k) % BUFFERED_ROWS =
          cursor.true_set_idx % BUFFERED_ROWS →
        t₀ + k = cursor.true_set_idx) →
      cursor.true_set_idx < api.num_sets →
      GoodRows (update_rows_go api cursor now
        (bandPairs a₀ t₀ m) acc).rows ∧
      acc.rows.length ≤ (update_rows_go api cursor now
        (bandPairs a₀ t₀ m) acc).rows.length ∧
      (∀ j : Nat, ∀ r r' : SetRow, acc.rows[j]? = some r →
        (update_rows_go api cursor now
          (bandPairs a₀ t₀ m) acc).rows[j]? = some r' →
        r'.true_set_idx = r.true_set_idx →
        r'.left_right_idx_adjustment = r.left_right_idx_adjustment ∧
        r.cached_img_id.length ≤ r'.cached_img_id.length ∧
        r'.set_data = r.set_data) ∧
      (∀ j : Nat, ∀ r' : SetRow,
        (update_rows_go api cursor now
          (bandPairs a₀ t₀ m) acc).rows[j]? = some r' →
        (∃ r, acc.rows[j]? = some r ∧ r'.true_set_idx = r.true_set_idx) ∨
        (t₀ ≤ r'.true_set_idx ∧ r'.true_set_idx < t₀ + m)) ∧
      (∀ u : Nat, t₀ ≤ u → u < t₀ + m → u < api.num_sets →
        ∃ ru, (update_rows_go api cursor now
          (bandPairs a₀ t₀ m) acc).rows[u % BUFFERED_ROWS]? = some ru ∧
          ru.true_set_idx = u) ∧
      ((cursor.true_set_idx < t₀ ∨ t₀ + m ≤ cursor.true_set_idx) →
        (update_rows_go api cursor now
          (bandPairs a₀ t₀ m) acc).rows[cursor.true_set_idx %
            BUFFERED_ROWS]? =
          acc.rows[cursor.true_set_idx % BUFFERED_ROWS]? ∧
        (update_rows_go api cursor now
          (bandPairs a₀ t₀ m) acc).highlighted = acc.highlighted) ∧
      (∀ rc : SetRow,
        acc.rows[cursor.true_set_idx % BUFFERED_ROWS]? = some rc →
        rc.true_set_idx = cursor.true_set_idx →
        rc.left_right_idx_adjustment ≤ cursor.true_item_idx →
        cursor.true_item_idx <
          rc.left_right_idx_adjustment + ROW_STRIDE →
        t₀ ≤ cursor.true_set_idx → cursor.true_set_idx < t₀ + m →
        (∃ rc', (update_rows_go api cursor now
            (bandPairs a₀ t₀ m) acc).rows[cursor.true_set_idx %
              BUFFERED_ROWS]? = some rc' ∧
          rc'.true_set_idx = cursor.true_set_idx ∧
          rc'.left_right_idx_adjustment =
            rc.left_right_idx_adjustment ∧
          cursor.true_item_idx < rc'.cached_img_id.length) ∧
        (∃ q w hh a2, (update_rows_go api cursor now
            (bandPairs a₀ t₀ m) acc).highlighted =
          some ⟨q, w, hh, cursor.true_set_idx,
            cursor.true_item_idx - rc.left_right_idx_adjustment, a2⟩)) := by
  intro m
  induction m with
  | zero =>
      intro a₀ t₀ acc hG hT hM hW hN
      have hr : update_rows_go api cursor now (bandPairs a₀ t₀ 0) acc =
        acc := rfl
      rw [hr]
      refine ⟨hG, le_refl _, ?_, ?_, ?_, fun _ => ⟨rfl, rfl⟩, ?_⟩
      · intro j r r' h1 h2 h3
        rw [h1] at h2
        cases h2
        exact ⟨rfl, le_refl _, rfl⟩
      · intro j r' h1
        exact Or.inl ⟨r', h1, rfl⟩
      · intro u h1 h2 h3
        omega
      · intro rc h1 h2 h3 h4 h5 h6
        omega
  | succ m' ih =>
      intro a₀ t₀ acc hG hT hM hW hN
      have hB : BUFFERED_ROWS = 6 := rfl
      have hNR : NUM_ROWS = 4 := rfl
      have hbp : bandPairs a₀ t₀ (m' + 1) =
        (a₀, t₀) :: bandPairs (a₀ + 1) (t₀ + 1) m' := rfl
      rw [hbp]
      have hW1 : ∀ k : Nat, k < m' →
          (t₀ + 1 + k) % BUFFERED_ROWS =
            cursor.true_set_idx % BUFFERED_ROWS →
          t₀ + 1 + k = cursor.true_set_idx := by
        intro k hk h
        have he : t₀ + (k + 1) = t₀ + 1 + k := by omega
        have := hW (k + 1) (by omega) (by rw [he]; exact h)
        omega
      have hW0 : t₀ % BUFFERED_ROWS =
          cursor.true_set_idx % BUFFERED_ROWS → t₀ = cursor.true_set_idx := by
        intro h
        have := hW 0 (by omega) (by rw [Nat.add_zero]; exact h)
        omega
      by_cases hhit : RowHit acc.rows t₀
      · -- ring hit on the head row
        obtain ⟨r, hslot, hmatch⟩ := hhit
        have hfr := fetch_row_hit api acc.rows t₀ r hslot hmatch
        have heq := update_rows_go_cons_some api cursor now a₀ t₀
          (bandPairs (a₀ + 1) (t₀ + 1) m') acc (t₀ % BUFFERED_ROWS) r
          (by rw [hfr])
        rw [heq, hfr]
        dsimp only []
        have hoff : r.left_right_idx_adjustment ≤
            r.cached_img_id.length := (hG.2.1 _ r hslot).2
        obtain ⟨p1, p2, p3, p4, p5, p6, p7⟩ := showRowPass_spec api cursor
          a₀ now r acc.img_data acc.notifier hoff
        have hslot_lt : t₀ % BUFFERED_ROWS < acc.rows.length :=
          (list_get?_isSome_iff _ _).mp (by rw [hslot]; rfl)
        have ht0_lt : acc.rows.length < BUFFERED_ROWS →
            t₀ < acc.rows.length := by
          intro h6
          have h1 := hT h6
          have h2 : t₀ % BUFFERED_ROWS = t₀ := by
            simp only [hB] at h6 ⊢
            omega
          rw [h2] at hslot_lt
          exact hslot_lt
        have hG1 : GoodRows (acc.rows.set (t₀ % BUFFERED_ROWS)
            (showRowPass api cursor a₀ now r acc.img_data
              acc.notifier).row) := by
          apply goodrows_set _ _ _ hG hslot_lt
          · rw [p2, hmatch]
          · rw [p3]
            exact le_trans hoff p4
          · intro h6
            rw [p2]
            exact hG.2.2 h6 _ r hslot
        have hT1 : (acc.rows.set (t₀ % BUFFERED_ROWS)
            (showRowPass api cursor a₀ now r acc.img_data
              acc.notifier).row).length < BUFFERED_ROWS →
            t₀ + 1 ≤ (acc.rows.set (t₀ % BUFFERED_ROWS)
              (showRowPass api cursor a₀ now r acc.img_data
                acc.notifier).row).length := by
          rw [List.length_set]
          intro h6
          have := ht0_lt h6
          omega
        have hIH := ih (a₀ + 1) (t₀ + 1)
          ⟨acc.rows.set (t₀ % BUFFERED_ROWS)
            (showRowPass api cursor a₀ now r acc.img_data
              acc.notifier).row,
            (showRowPass api cursor a₀ now r acc.img_data
              acc.notifier).img_data,
            (showRowPass api cursor a₀ now r acc.img_data
              acc.notifier).notifier,
            if (showRowPass api cursor a₀ now r acc.img_data
                acc.notifier).highlighted.isSome then
              (showRowPass api cursor a₀ now r acc.img_data
                acc.notifier).highlighted
            else acc.highlighted⟩ hG1 hT1 (by omega) hW1 hN
        dsimp only [] at hIH
        obtain ⟨i1, i2, i3, i4, i5, i6, i7⟩ := hIH
        have hmid_self : (acc.rows.set (t₀ % BUFFERED_ROWS)
            (showRowPass api cursor a₀ now r acc.img_data
              acc.notifier).row)[t₀ % BUFFERED_ROWS]? =
            some (showRowPass api cursor a₀ now r acc.img_data
              acc.notifier).row := by
          rw [list_get?_set, if_pos ⟨rfl, hslot_lt⟩]
        have hmid_other : ∀ j : Nat, j ≠ t₀ % BUFFERED_ROWS →
            (acc.rows.set (t₀ % BUFFERED_ROWS)
              (showRowPass api cursor a₀ now r acc.img_data
                acc.notifier).row)[j]? = acc.rows[j]? := by
          intro j hj
          rw [list_get?_set, if_neg (fun hc => hj hc.1.symm)]
        refine ⟨i1, ?_, ?_, ?_, ?_, ?_, ?_⟩
        · -- length monotone
          rw [List.length_set] at i2
          exact i2
        · -- K3 same-row facts
          intro j rr rr' h1 h2 h3
          by_cases hj : j = t₀ % BUFFERED_ROWS
          · subst hj
            rw [hslot] at h1
            cases h1
            have h4 := i3 _ _ rr' hmid_self h2 (h3.trans p2.symm)
            exact ⟨h4.1.trans p3, le_trans p4 h4.2.1, h4.2.2.trans p1⟩
          · exact i3 j rr rr' (by rw [hmid_other j hj]; exact h1) h2 h3
        · -- K3b origin of rows
          intro j r' h2
          rcases i4 j r' h2 with ⟨rmid, hmid, htr⟩ | hrange
          · by_cases hj : j = t₀ % BUFFERED_ROWS
            · subst hj
              rw [hmid_self] at hmid
              cases hmid
              exact Or.inl ⟨r, hslot, htr.trans p2⟩
            · rw [hmid_other j hj] at hmid
              exact Or.inl ⟨rmid, hmid, htr⟩
          · exact Or.inr ⟨by omega, by omega⟩
        · -- K7 window rows present
          intro u h1 h2 h3
          by_cases hu : u = t₀
          · subst hu
            have hlen1 : u % BUFFERED_ROWS <
                (acc.rows.set (u % BUFFERED_ROWS)
                  (showRowPass api cursor a₀ now r acc.img_data
                    acc.notifier).row).length := by
              rw [List.length_set]
              exact hslot_lt
            have hlenres := lt_of_lt_of_le hlen1 i2
            obtain ⟨ru, hru⟩ := Option.isSome_iff_exists.mp
              ((list_get?_isSome_iff _ _).mpr hlenres)
            rcases i4 _ ru hru with ⟨rmid, hmid, htr⟩ | ⟨hr1, hr2⟩
            · rw [hmid_self] at hmid
              cases hmid
              exact ⟨ru, hru, htr.trans (p2.trans hmatch)⟩
            · exfalso
              have hmod := (i1.2.1 _ ru hru).1
              simp only [hB] at hmod
              simp only [hNR] at hM
              omega
          · exact i5 u (by omega) (by omega) h3
        · -- K6 cursor slot and highlight untouched when outside window
          intro hout
          have hct0 : cursor.true_set_idx ≠ t₀ := by omega
          have hslotne : t₀ % BUFFERED_ROWS ≠
              cursor.true_set_idx % BUFFERED_ROWS :=
            fun hcc => hct0 (hW0 hcc).symm
          have h6 := i6 (by omega)
          constructor
          · rw [h6.1]
            exact hmid_other _ (fun hcc => hslotne hcc.symm)
          · rw [h6.2]
            have hnone := p7 (Or.inl (by rw [hmatch]; exact hct0))
            simp [hnone]
        · -- K5 cursor highlight found inside window
          intro rc hrc htrue ho1 ho2 h5 h6
          by_cases hceq : cursor.true_set_idx = t₀
          · have hrr : rc = r := by
              rw [hceq] at hrc
              rw [hslot] at hrc
              cases hrc
              rfl
            subst hrr
            obtain ⟨q, w, hh, hsome⟩ := p6
              ⟨by rw [hceq, ← hmatch], ho1, by
                have hR : ROW_STRIDE = 6 := rfl
                omega⟩
            have h6t := i6 (by omega)
            constructor
            · refine ⟨(showRowPass api cursor a₀ now rc acc.img_data
                acc.notifier).row, ?_, ?_, p3, ?_⟩
              · rw [h6t.1, hceq]
                exact hmid_self
              · rw [p2, hmatch, ← hceq]
              · have hentry := p5 cursor.true_item_idx ho1 (by
                  have hR : ROW_STRIDE = 6 := rfl
                  omega)
                exact (list_get?_isSome_iff _ _).mp hentry
            · refine ⟨q, w, hh, a₀, ?_⟩
              rw [h6t.2]
              simp only [hsome]
              rw [show rc.true_set_idx = cursor.true_set_idx from htrue]
              rfl
          · have hslotne : t₀ % BUFFERED_ROWS ≠
                cursor.true_set_idx % BUFFERED_ROWS :=
              fun hcc => hceq (hW0 hcc).symm
            have hmid : (acc.rows.set (t₀ % BUFFERED_ROWS)
                (showRowPass api cursor a₀ now r acc.img_data
                  acc.notifier).row)[cursor.true_set_idx %
                    BUFFERED_ROWS]? = some rc := by
              rw [hmid_other _ (fun hcc => hslotne hcc.symm)]
              exact hrc
            exact i7 rc hmid htrue ho1 ho2 (by omega) (by omega)
      · -- ring miss on the head row
        cases hgs : api.get_set t₀ with
        | none =>
            have hfr := fetch_row_miss_none api acc.rows t₀ hhit hgs
            have heq := update_rows_go_cons_none api cursor now a₀ t₀
              (bandPairs (a₀ + 1) (t₀ + 1) m') acc (by rw [hfr])
            rw [heq, hfr]
            dsimp only []
            have ht0n : api.num_sets ≤ t₀ := by
              by_contra hlt
              unfold ApiM.get_set at hgs
              rw [if_pos (by omega)] at hgs
              cases hgs
            refine ⟨hG, le_refl _, ?_, ?_, ?_, fun _ => ⟨rfl, rfl⟩, ?_⟩
            · intro j rr rr' h1 h2 h3
              rw [h1] at h2
              cases h2
              exact ⟨rfl, le_refl _, rfl⟩
            · intro j r' h1
              exact Or.inl ⟨r', h1, rfl⟩
            · intro u h1 h2 h3
              omega
            · intro rc h1 h2 h3 h4 h5 h6
              omega
        | some d =>
            have hle : t₀ % BUFFERED_ROWS ≤ acc.rows.length := by
              rcases Nat.lt_or_ge acc.rows.length BUFFERED_ROWS with h6 | h6
              · have h1 := hT h6
                simp only [hB] at h6 ⊢
                omega
              · have h1 := hG.1
                simp only [hB] at h1 ⊢
                omega
            have hstore := fetch_row_miss_store api acc.rows t₀ d hhit hgs hle
            have hofffresh : (SetRow.new d t₀).left_right_idx_adjustment ≤
                (SetRow.new d t₀).cached_img_id.length := Nat.le_refl 0
            have hft : (SetRow.new d t₀).true_set_idx = t₀ := rfl
            have hfo : (SetRow.new d t₀).left_right_idx_adjustment = 0 := rfl
            obtain ⟨p1, p2, p3, p4, p5, p6, p7⟩ := showRowPass_spec api cursor
              a₀ now (SetRow.new d t₀) acc.img_data acc.notifier hofffresh
            by_cases hpush : t₀ % BUFFERED_ROWS = acc.rows.length
            · -- fresh row pushed at the end of the ring
              rw [if_pos hpush] at hstore
              have heq := update_rows_go_cons_some api cursor now a₀ t₀
                (bandPairs (a₀ + 1) (t₀ + 1) m') acc (t₀ % BUFFERED_ROWS)
                (SetRow.new d t₀) (by rw [hstore])
              rw [heq, hstore]
              dsimp only []
              have hlen_lt6 : acc.rows.length < BUFFERED_ROWS := by
                simp only [hB] at hpush ⊢
                omega
              have ht0_eq : t₀ = acc.rows.length := by
                have h1 := hT hlen_lt6
                simp only [hB] at hpush
                omega
              have happend : GoodRows (acc.rows ++ [SetRow.new d t₀]) :=
                goodrows_append _ _ hG hlen_lt6 (hft.trans ht0_eq) hofffresh
              have hslot_lt1 : t₀ % BUFFERED_ROWS <
                  (acc.rows ++ [SetRow.new d t₀]).length := by
                rw [List.length_append, List.length_singleton]
                omega
              have hG1 : GoodRows ((acc.rows ++ [SetRow.new d t₀]).set
                  (t₀ % BUFFERED_ROWS)
                  (showRowPass api cursor a₀ now (SetRow.new d t₀)
                    acc.img_data acc.notifier).row) := by
                apply goodrows_set _ _ _ happend hslot_lt1
                · rw [p2, hft]
                · rw [p3, hfo]
                  exact Nat.zero_le _
                · intro _
                  rw [p2, hft]
                  simp only [hB]
                  have h1 : acc.rows.length < 6 := by
                    simp only [hB] at hlen_lt6
                    exact hlen_lt6
                  omega
              have hT1 : ((acc.rows ++ [SetRow.new d t₀]).set
                  (t₀ % BUFFERED_ROWS)
                  (showRowPass api cursor a₀ now (SetRow.new d t₀)
                    acc.img_data acc.notifier).row).length < BUFFERED_ROWS →
                  t₀ + 1 ≤ ((acc.rows ++ [SetRow.new d t₀]).set
                    (t₀ % BUFFERED_ROWS)
                    (showRowPass api cursor a₀ now (SetRow.new d t₀)
                      acc.img_data acc.notifier).row).length := by
                rw [List.length_set, List.length_append,
                  List.length_singleton]
                intro _
                omega
              have hIH := ih (a₀ + 1) (t₀ + 1)
                ⟨(acc.rows ++ [SetRow.new d t₀]).set (t₀ % BUFFERED_ROWS)
                    (showRowPass api cursor a₀ now (SetRow.new d t₀)
                      acc.img_data acc.notifier).row,
                  (showRowPass api cursor a₀ now (SetRow.new d t₀)
                    acc.img_data acc.notifier).img_data,
                  (showRowPass api cursor a₀ now (SetRow.new d t₀)
                    acc.img_data acc.notifier).notifier,
                  if (showRowPass api cursor a₀ now (SetRow.new d t₀)
                      acc.img_data acc.notifier).highlighted.isSome then
                    (showRowPass api cursor a₀ now (SetRow.new d t₀)
                      acc.img_data acc.notifier).highlighted
                  else acc.highlighted⟩ hG1 hT1 (by omega) hW1 hN
              dsimp only [] at hIH
              obtain ⟨i1, i2, i3, i4, i5, i6, i7⟩ := hIH
              have hmid_self : ((acc.rows ++ [SetRow.new d t₀]).set
                  (t₀ % BUFFERED_ROWS)
                  (showRowPass api cursor a₀ now (SetRow.new d t₀)
                    acc.img_data acc.notifier).row)[t₀ % BUFFERED_ROWS]? =
                  some (showRowPass api cursor a₀ now (SetRow.new d t₀)
                    acc.img_data acc.notifier).row := by
                rw [list_get?_set, if_pos ⟨rfl, hslot_lt1⟩]
              have hmid_other : ∀ j : Nat, j ≠ t₀ % BUFFERED_ROWS →
                  ((acc.rows ++ [SetRow.new d t₀]).set (t₀ % BUFFERED_ROWS)
                    (showRowPass api cursor a₀ now (SetRow.new d t₀)
                      acc.img_data acc.notifier).row)[j]? =
                    acc.rows[j]? := by
                intro j hj
                rw [list_get?_set, if_neg (fun hc => hj hc.1.symm),
                  list_get?_concat]
                by_cases hjl : j < acc.rows.length
                · rw [if_pos hjl]
                · rw [if_neg hjl,
                    if_neg (fun he => hj (he.trans hpush.symm))]
                  exact (List.getElem?_eq_none (by omega)).symm
              refine ⟨i1, ?_, ?_, ?_, ?_, ?_, ?_⟩
              · refine le_trans ?_ i2
                rw [List.length_set, List.length_append,
                  List.length_singleton]
                omega
              · intro j rr rr' h1 h2 h3
                by_cases hj : j = t₀ % BUFFERED_ROWS
                · subst hj
                  rw [hpush] at h1
                  rw [List.getElem?_eq_none (le_refl _)] at h1
                  cases h1
                · exact i3 j rr rr'
                    (by rw [hmid_other j hj]; exact h1) h2 h3
              · intro j r' h2
                rcases i4 j r' h2 with ⟨rmid, hmid, htr⟩ | hrange
                · by_cases hj : j = t₀ % BUFFERED_ROWS
                  · subst hj
                    rw [hmid_self] at hmid
                    cases hmid
                    have h5 : r'.true_set_idx = t₀ := by rw [htr, p2, hft]
                    exact Or.inr ⟨by omega, by omega⟩
                  · rw [hmid_other j hj] at hmid
                    exact Or.inl ⟨rmid, hmid, htr⟩
                · exact Or.inr ⟨by omega, by omega⟩
              · intro u h1 h2 h3
                by_cases hu : u = t₀
                · subst hu
                  have hlen1 : u % BUFFERED_ROWS <
                      ((acc.rows ++ [SetRow.new d u]).set
                        (u % BUFFERED_ROWS)
                        (showRowPass api cursor a₀ now (SetRow.new d u)
                          acc.img_data acc.notifier).row).length := by
                    rw [List.length_set]
                    exact hslot_lt1
                  have hlenres := lt_of_lt_of_le hlen1 i2
                  obtain ⟨ru, hru⟩ := Option.isSome_iff_exists.mp
                    ((list_get?_isSome_iff _ _).mpr hlenres)
                  rcases i4 _ ru hru with ⟨rmid, hmid, htr⟩ | ⟨hr1, hr2⟩
                  · rw [hmid_self] at hmid
                    cases hmid
                    exact ⟨ru, hru, htr.trans (p2.trans hft)⟩
                  · exfalso
                    have hmod := (i1.2.1 _ ru hru).1
                    simp only [hB] at hmod
                    simp only [hNR] at hM
                    omega
                · exact i5 u (by omega) (by omega) h3
              · intro hout
                have hct0 : cursor.true_set_idx ≠ t₀ := by omega
                have hslotne : t₀ % BUFFERED_ROWS ≠
                    cursor.true_set_idx % BUFFERED_ROWS :=
                  fun hcc => hct0 (hW0 hcc).symm
                have h6 := i6 (by omega)
                constructor
                · rw [h6.1]
                  exact hmid_other _ (fun hcc => hslotne hcc.symm)
                · rw [h6.2]
                  have hnone := p7 (Or.inl (by rw [hft]; exact hct0))
                  simp [hnone]
              · intro rc hrc htrue ho1 ho2 h5 h6
                by_cases hceq : cursor.true_set_idx = t₀
                · exfalso
                  apply hhit
                  rw [hceq] at hrc
                  exact ⟨rc, hrc, by rw [htrue, hceq]⟩
                · have hslotne : t₀ % BUFFERED_ROWS ≠
                      cursor.true_set_idx % BUFFERED_ROWS :=
                    fun hcc => hceq (hW0 hcc).symm
                  have hmid : ((acc.rows ++ [SetRow.new d t₀]).set
                      (t₀ % BUFFERED_ROWS)
                      (showRowPass api cursor a₀ now (SetRow.new d t₀)
                        acc.img_data
                        acc.notifier).row)[cursor.true_set_idx %
                          BUFFERED_ROWS]? = some rc := by
                    rw [hmid_other _ (fun hcc => hslotne hcc.symm)]
                    exact hrc
                  exact i7 rc hmid htrue ho1 ho2 (by omega) (by omega)
            · -- fresh row overwrites the stale slot
              rw [if_neg hpush] at hstore
              have heq := update_rows_go_cons_some api cursor now a₀ t₀
                (bandPairs (a₀ + 1) (t₀ + 1) m') acc (t₀ % BUFFERED_ROWS)
                (SetRow.new d t₀) (by rw [hstore])
              rw [heq, hstore]
              dsimp only []
              have hslot_lt : t₀ % BUFFERED_ROWS < acc.rows.length :=
                lt_of_le_of_ne hle hpush
              have hlen6 : ¬ acc.rows.length < BUFFERED_ROWS := by
                intro h6
                have h1 := hT h6
                have h2 : t₀ % BUFFERED_ROWS = t₀ := by
                  simp only [hB] at h6 ⊢
                  omega
                have h3 : t₀ < acc.rows.length := by
                  rw [h2] at hslot_lt
                  exact hslot_lt
                obtain ⟨rr, hrr⟩ := Option.isSome_iff_exists.mp
                  ((list_get?_isSome_iff _ _).mpr h3)
                exact hhit ⟨rr, by rw [h2]; exact hrr,
                  hG.2.2 h6 _ rr hrr⟩
              have hGset : GoodRows (acc.rows.set (t₀ % BUFFERED_ROWS)
                  (SetRow.new d t₀)) := by
                apply goodrows_set _ _ _ hG hslot_lt
                · rw [hft]
                · exact hofffresh
                · intro h6
                  exact absurd h6 hlen6
              have hG1 : GoodRows ((acc.rows.set (t₀ % BUFFERED_ROWS)
                  (SetRow.new d t₀)).set (t₀ % BUFFERED_ROWS)
                  (showRowPass api cursor a₀ now (SetRow.new d t₀)
                    acc.img_data acc.notifier).row) := by
                apply goodrows_set _ _ _ hGset
                  (by rw [List.length_set]; exact hslot_lt)
                · rw [p2, hft]
                · rw [p3, hfo]
                  exact Nat.zero_le _
                · intro h6
                  rw [List.length_set] at h6
                  exact absurd h6 hlen6
              have hT1 : ((acc.rows.set (t₀ % BUFFERED_ROWS)
                  (SetRow.new d t₀)).set (t₀ % BUFFERED_ROWS)
                  (showRowPass api cursor a₀ now (SetRow.new d t₀)
                    acc.img_data acc.notifier).row).length <
                  BUFFERED_ROWS →
                  t₀ + 1 ≤ ((acc.rows.set (t₀ % BUFFERED_ROWS)
                    (SetRow.new d t₀)).set (t₀ % BUFFERED_ROWS)
                    (showRowPass api cursor a₀ now (SetRow.new d t₀)
                      acc.img_data acc.notifier).row).length := by
                rw [List.length_set, List.length_set]
                intro h6
                exact absurd h6 hlen6
              have hIH := ih (a₀ + 1) (t₀ + 1)
                ⟨(acc.rows.set (t₀ % BUFFERED_ROWS)
                    (SetRow.new d t₀)).set (t₀ % BUFFERED_ROWS)
                    (showRowPass api cursor a₀ now (SetRow.new d t₀)
                      acc.img_data acc.notifier).row,
                  (showRowPass api cursor a₀ now (SetRow.new d t₀)
                    acc.img_data acc.notifier).img_data,
                  (showRowPass api cursor a₀ now (SetRow.new d t₀)
                    acc.img_data acc.notifier).notifier,
                  if (showRowPass api cursor a₀ now (SetRow.new d t₀)
                      acc.img_data acc.notifier).highlighted.isSome then
                    (showRowPass api cursor a₀ now (SetRow.new d t₀)
                      acc.img_data acc.notifier).highlighted
                  else acc.highlighted⟩ hG1 hT1 (by omega) hW1 hN
              dsimp only [] at hIH
              obtain ⟨i1, i2, i3, i4, i5, i6, i7⟩ := hIH
              have hmid_self : ((acc.rows.set (t₀ % BUFFERED_ROWS)
                  (SetRow.new d t₀)).set (t₀ % BUFFERED_ROWS)
                  (showRowPass api cursor a₀ now (SetRow.new d t₀)
                    acc.img_data
                    acc.notifier).row)[t₀ % BUFFERED_ROWS]? =
                  some (showRowPass api cursor a₀ now (SetRow.new d t₀)
                    acc.img_data acc.notifier).row := by
                rw [list_get?_set,
                  if_pos ⟨rfl, by rw [List.length_set]; exact hslot_lt⟩]
              have hmid_other : ∀ j : Nat, j ≠ t₀ % BUFFERED_ROWS →
                  ((acc.rows.set (t₀ % BUFFERED_ROWS)
                    (SetRow.new d t₀)).set (t₀ % BUFFERED_ROWS)
                    (showRowPass api cursor a₀ now (SetRow.new d t₀)
                      acc.img_data acc.notifier).row)[j]? =
                    acc.rows[j]? := by
                intro j hj
                rw [list_get?_set, if_neg (fun hc => hj hc.1.symm),
                  list_get?_set, if_neg (fun hc => hj hc.1.symm)]
              refine ⟨i1, ?_, ?_, ?_, ?_, ?_, ?_⟩
              · refine le_trans ?_ i2
                rw [List.length_set, List.length_set]
              · intro j rr rr' h1 h2 h3
                by_cases hj : j = t₀ % BUFFERED_ROWS
                · exfalso
                  subst hj
                  rcases i4 _ rr' h2 with ⟨rmid, hmid, htr⟩ | hrange
                  · rw [hmid_self] at hmid
                    cases hmid
                    have h5 : rr.true_set_idx = t₀ := by
                      rw [← h3, htr, p2, hft]
                    exact hhit ⟨rr, h1, h5⟩
                  · have hmod := (hG.2.1 _ rr h1).1
                    have h5 : rr'.true_set_idx = rr.true_set_idx := h3
                    simp only [hB] at hmod
                    simp only [hNR] at hM
                    omega
                · exact i3 j rr rr'
                    (by rw [hmid_other j hj]; exact h1) h2 h3
              · intro j r' h2
                rcases i4 j r' h2 with ⟨rmid, hmid, htr⟩ | hrange
                · by_cases hj : j = t₀ % BUFFERED_ROWS
                  · subst hj
                    rw [hmid_self] at hmid
                    cases hmid
                    have h5 : r'.true_set_idx = t₀ := by rw [htr, p2, hft]
                    exact Or.inr ⟨by omega, by omega⟩
                  · rw [hmid_other j hj] at hmid
                    exact Or.inl ⟨rmid, hmid, htr⟩
                · exact Or.inr ⟨by omega, by omega⟩
              · intro u h1 h2 h3
                by_cases hu : u = t₀
                · subst hu
                  have hlen1 : u % BUFFERED_ROWS <
                      ((acc.rows.set (u % BUFFERED_ROWS)
                        (SetRow.new d u)).set (u % BUFFERED_ROWS)
                        (showRowPass api cursor a₀ now (SetRow.new d u)
                          acc.img_data acc.notifier).row).length := by
                    rw [List.length_set, List.length_set]
                    exact hslot_lt
                  have hlenres := lt_of_lt_of_le hlen1 i2
                  obtain ⟨ru, hru⟩ := Option.isSome_iff_exists.mp
                    ((list_get?_isSome_iff _ _).mpr hlenres)
                  rcases i4 _ ru hru with ⟨rmid, hmid, htr⟩ | ⟨hr1, hr2⟩
                  · rw [hmid_self] at hmid
                    cases hmid
                    exact ⟨ru, hru, htr.trans (p2.trans hft)⟩
                  · exfalso
                    have hmod := (i1.2.1 _ ru hru).1
                    simp only [hB] at hmod
                    simp only [hNR] at hM
                    omega
                · exact i5 u (by omega) (by omega) h3
              · intro hout
                have hct0 : cursor.true_set_idx ≠ t₀ := by omega
                have hslotne : t₀ % BUFFERED_ROWS ≠
                    cursor.true_set_idx % BUFFERED_ROWS :=
                  fun hcc => hct0 (hW0 hcc).symm
                have h6 := i6 (by omega)
                constructor
                · rw [h6.1]
                  exact hmid_other _ (fun hcc => hslotne hcc.symm)
                · rw [h6.2]
                  have hnone := p7 (Or.inl (by rw [hft]; exact hct0))
                  simp [hnone]
              · intro rc hrc htrue ho1 ho2 h5 h6
                by_cases hceq : cursor.true_set_idx = t₀
                · exfalso
                  apply hhit
                  rw [hceq] at hrc
                  exact ⟨rc, hrc, by rw [htrue, hceq]⟩
                · have hslotne : t₀ % BUFFERED_ROWS ≠
                      cursor.true_set_idx % BUFFERED_ROWS :=
                    fun hcc => hceq (hW0 hcc).symm
                  have hmid : ((acc.rows.set (t₀ % BUFFERED_ROWS)
                      (SetRow.new d t₀)).set (t₀ % BUFFERED_ROWS)
                      (showRowPass api cursor a₀ now (SetRow.new d t₀)
                        acc.img_data
                        acc.notifier).row)[cursor.true_set_idx %
                          BUFFERED_ROWS]? = some rc := by
                    rw [hmid_other _ (fun hcc => hslotne hcc.symm)]
                    exact hrc
                  exact i7 rc hmid htrue ho1 ho2 (by omega) (by omega)

theorem inv_preinv (api : ApiM) (st : ControllerState) (h : CtrlInv api st) :
    PreInv api st := by
  obtain ⟨h1, h2, h3, h4, rc, h5, h6, h7, h8, h9⟩ := h
  exact ⟨h1, h2, h3, h4, rc, h5, h6, by omega, by omega⟩

theorem shift_left_cases (r : SetRow) (a : Nat) :
    (r.shift_left a).true_set_idx = r.true_set_idx ∧
    (r.shift_left a).cached_img_id = r.cached_img_id ∧
    (r.shift_left a).set_data = r.set_data ∧
    ((0 < r.left_right_idx_adjustment ∧ a < 2 ∧
        (r.shift_left a).left_right_idx_adjustment + 1 =
          r.left_right_idx_adjustment) ∨
      ((r.left_right_idx_adjustment = 0 ∨ 2 ≤ a) ∧
        (r.shift_left a).left_right_idx_adjustment =
          r.left_right_idx_adjustment)) := by
  unfold SetRow.shift_left
  split
  · next h =>
      refine ⟨rfl, rfl, rfl, Or.inl ⟨h.1, h.2, ?_⟩⟩
      dsimp only []
      omega
  · next h => exact ⟨rfl, rfl, rfl, Or.inr ⟨by omega, rfl⟩⟩

theorem shift_right_cases (r : SetRow) (a t : Nat) :
    (r.shift_right a t).1.true_set_idx = r.true_set_idx ∧
    (r.shift_right a t).1.cached_img_id = r.cached_img_id ∧
    (r.shift_right a t).1.set_data = r.set_data ∧
    ((t + 1 < r.set_data.get_item_count ∧ (r.shift_right a t).2 = true ∧
        ((ROW_STRIDE < a + 4 ∧
            (r.shift_right a t).1.left_right_idx_adjustment =
              r.left_right_idx_adjustment + 1) ∨
          (a + 4 ≤ ROW_STRIDE ∧
            (r.shift_right a t).1.left_right_idx_adjustment =
              r.left_right_idx_adjustment))) ∨
      (r.set_data.get_item_count ≤ t + 1 ∧ (r.shift_right a t).2 = false ∧
        (r.shift_right a t).1 = r)) := by
  unfold SetRow.shift_right
  split
  · next h =>
      split
      · next h2 => exact ⟨rfl, rfl, rfl, Or.inl ⟨h, rfl, Or.inl ⟨h2, rfl⟩⟩⟩
      · next h2 =>
          exact ⟨rfl, rfl, rfl, Or.inl ⟨h, rfl, Or.inr ⟨by omega, rfl⟩⟩⟩
  · next h => exact ⟨rfl, rfl, rfl, Or.inr ⟨by omega, rfl, rfl⟩⟩

/-- `fetch_row` on a good ring with an in-range target: the ring stays good
and only grows, the target row is returned sitting at its home slot, and no
row matched by slot and identity is modified at all. -/
theorem fetch_row_full (api : ApiM) (rows : List SetRow) (t : Nat)
    (hG : GoodRows rows) (hT : rows.length < BUFFERED_ROWS → t ≤ rows.length)
    (hn : t < api.num_sets) :
    GoodRows (DisplayController.fetch_row api rows t).rows ∧
    rows.length ≤ (DisplayController.fetch_row api rows t).rows.length ∧
    (∃ r₁, (DisplayController.fetch_row api rows t).found =
        some (t % BUFFERED_ROWS, r₁) ∧
      (DisplayController.fetch_row api rows t).rows[t % BUFFERED_ROWS]? =
        some r₁ ∧
      r₁.true_set_idx = t ∧
      r₁.left_right_idx_adjustment ≤ r₁.cached_img_id.length) ∧
    (∀ j : Nat, j ≠ t % BUFFERED_ROWS →
      (DisplayController.fetch_row api rows t).rows[j]? = rows[j]?) ∧
    (∀ j : Nat, ∀ r r' : SetRow, rows[j]? = some r →
      (DisplayController.fetch_row api rows t).rows[j]? = some r' →
      r'.true_set_idx = r.true_set_idx → r' = r) := by
  have hB : BUFFERED_ROWS = 6 := rfl
  by_cases hhit : RowHit rows t
  · obtain ⟨r, hslot, hmatch⟩ := hhit
    rw [fetch_row_hit api rows t r hslot hmatch]
    dsimp only []
    refine ⟨hG, le_refl _, ⟨r, rfl, hslot, hmatch, (hG.2.1 _ r hslot).2⟩,
      fun j _ => rfl, ?_⟩
    intro j rr rr' h1 h2 h3
    rw [h1] at h2
    cases h2
    rfl
  · obtain ⟨d, hgs⟩ : ∃ d, api.get_set t = some d := by
      unfold ApiM.get_set
      rw [if_pos hn]
      exact ⟨_, rfl⟩
    have hle : t % BUFFERED_ROWS ≤ rows.length := by
      rcases Nat.lt_or_ge rows.length BUFFERED_ROWS with h6 | h6
      · have h1 := hT h6
        simp only [hB] at h6 ⊢
        omega
      · have h1 := hG.1
        simp only [hB] at h1 ⊢
        omega
    rw [fetch_row_miss_store api rows t d hhit hgs hle]
    dsimp only []
    have hft : (SetRow.new d t).true_set_idx = t := rfl
    have hofffresh : (SetRow.new d t).left_right_idx_adjustment ≤
        (SetRow.new d t).cached_img_id.length := Nat.le_refl 0
    by_cases hpush : t % BUFFERED_ROWS = rows.length
    · rw [if_pos hpush]
      have hlen_lt6 : rows.length < BUFFERED_ROWS := by
        simp only [hB] at hpush ⊢
        omega
      have ht_eq : t = rows.length := by
        have h1 := hT hlen_lt6
        simp only [hB] at hpush
        omega
      refine ⟨goodrows_append _ _ hG hlen_lt6 (hft.trans ht_eq) hofffresh,
        by rw [List.length_append, List.length_singleton]; omega,
        ⟨SetRow.new d t, rfl, ?_, hft, hofffresh⟩, ?_, ?_⟩
      · rw [list_get?_concat, if_neg (by omega), if_pos hpush]
      · intro j hj
        rw [list_get?_concat]
        by_cases hjl : j < rows.length
        · rw [if_pos hjl]
        · rw [if_neg hjl, if_neg (fun he => hj (he.trans hpush.symm))]
          exact (List.getElem?_eq_none (by omega)).symm
      · intro j rr rr' h1 h2 h3
        have hjl : j < rows.length :=
          (list_get?_isSome_iff _ _).mp (by rw [h1]; rfl)
        rw [list_get?_concat, if_pos hjl, h1] at h2
        cases h2
        rfl
    · rw [if_neg hpush]
      have hslot_lt : t % BUFFERED_ROWS < rows.length :=
        lt_of_le_of_ne hle hpush
      have hlen6 : ¬ rows.length < BUFFERED_ROWS := by
        intro h6
        have h1 := hT h6
        have h2 : t % BUFFERED_ROWS = t := by
          simp only [hB] at h6 ⊢
          omega
        have h3 : t < rows.length := by
          rw [h2] at hslot_lt
          exact hslot_lt
        obtain ⟨rr, hrr⟩ := Option.isSome_iff_exists.mp
          ((list_get?_isSome_iff _ _).mpr h3)
        exact hhit ⟨rr, by rw [h2]; exact hrr, hG.2.2 h6 _ rr hrr⟩
      refine ⟨?_, by rw [List.length_set], ⟨SetRow.new d t, rfl, ?_, hft,
        hofffresh⟩, ?_, ?_⟩
      · apply goodrows_set _ _ _ hG hslot_lt
        · rw [hft]
        · exact hofffresh
        · intro h6
          exact absurd h6 hlen6
      · rw [list_get?_set, if_pos ⟨rfl, hslot_lt⟩]
      · intro j hj
        rw [list_get?_set, if_neg (fun hc => hj hc.1.symm)]
      · intro j rr rr' h1 h2 h3
        by_cases hj : j = t % BUFFERED_ROWS
        · exfalso
          subst hj
          rw [list_get?_set, if_pos ⟨rfl, hslot_lt⟩] at h2
          cases h2
          exact hhit ⟨rr, h1, by rw [← h3, hft]⟩
        · rw [list_get?_set, if_neg (fun hc => hj hc.1.symm), h1] at h2
          cases h2
          rfl

/-- `update_image_widgets` on a state satisfying `PreInv`: the result
satisfies the full invariant `Inv`, the cursor's set and item are untouched,
the ring only grows, and every row matched by slot and identity keeps its
offset and can only gain cache entries. -/
theorem update_master (api : ApiM) (st : ControllerState) (now : Nat)
    (hP : PreInv api st) :
    CtrlInv api (DisplayController.update_image_widgets api st now) ∧
    (DisplayController.update_image_widgets api st
      now).cursor.true_set_idx = st.cursor.true_set_idx ∧
    (DisplayController.update_image_widgets api st
      now).cursor.true_item_idx = st.cursor.true_item_idx ∧
    st.rows.length ≤
      (DisplayController.update_image_widgets api st now).rows.length ∧
    (∀ j : Nat, ∀ r r' : SetRow, st.rows[j]? = some r →
      (DisplayController.update_image_widgets api st
        now).rows[j]? = some r' →
      r'.true_set_idx = r.true_set_idx →
      r'.left_right_idx_adjustment = r.left_right_idx_adjustment ∧
      r.cached_img_id.length ≤ r'.cached_img_id.length) := by
  obtain ⟨hG, hlen, hN, hwf, rc, hrc, hrct, hw1, hw2⟩ := hP
  have hB : BUFFERED_ROWS = 6 := rfl
  have hR : ROW_STRIDE = 6 := rfl
  have hgood := visible_set_range_good st.prev_visible_range
    st.cursor.true_set_idx hwf
  have hg1 := hgood.1
  have hg2 : (DisplayController.visible_set_range st.prev_visible_range
      st.cursor.true_set_idx).start ≤ st.cursor.true_set_idx := hgood.2.1
  have hg3 : st.cursor.true_set_idx <
      (DisplayController.visible_set_range st.prev_visible_range
        st.cursor.true_set_idx).stop := hgood.2.2
  have hslot_lt : st.cursor.true_set_idx % BUFFERED_ROWS < st.rows.length :=
    (list_get?_isSome_iff _ _).mp (by rw [hrc]; rfl)
  have hg1' : (DisplayController.visible_set_range st.prev_visible_range
      st.cursor.true_set_idx).stop =
      (DisplayController.visible_set_range st.prev_visible_range
        st.cursor.true_set_idx).start + 4 := by
    have h := hg1
    unfold NUM_ROWS at h
    exact h
  have hc_lt : st.rows.length < BUFFERED_ROWS →
      st.cursor.true_set_idx < st.rows.length := by
    intro h6
    have hpre := hG.2.2 h6 _ rc hrc
    rw [hrct] at hpre
    have h2 := hslot_lt
    rw [← hpre] at h2
    exact h2
  have hmaster := update_rows_go_master api st.cursor now
    ((DisplayController.visible_set_range st.prev_visible_range
      st.cursor.true_set_idx).stop -
      (DisplayController.visible_set_range st.prev_visible_range
        st.cursor.true_set_idx).start) 0
    (DisplayController.visible_set_range st.prev_visible_range
      st.cursor.true_set_idx).start
    ⟨st.rows, st.disp_ctrl_img_data, st.notifier, none⟩
    hG (fun h6 => le_trans hg2 (le_of_lt (hc_lt h6))) (by omega)
    (by
      intro k hk hmod
      simp only [hB] at hmod
      omega) hN
  dsimp only [] at hmaster
  obtain ⟨k1, k2, k3, _k4, _k7, _k6, k5⟩ := hmaster
  have hk5 := k5 rc hrc hrct hw1 hw2 hg2 (by omega)
  obtain ⟨⟨rc', hrc', hrct', hoff', hti'⟩, q, w, hh, a2, hhl⟩ := hk5
  have hfr := fetch_row_hit api _ st.cursor.true_set_idx rc' hrc' hrct'
  unfold DisplayController.update_image_widgets
  simp only []
  rw [hhl]
  dsimp only []
  rw [hfr]
  dsimp only []
  refine ⟨⟨?_, ?_, ?_, ?_, rc', ?_, ?_, ?_, ?_, ?_⟩, ?_, ?_, ?_, ?_⟩
  · exact k1
  · exact le_trans hlen k2
  · exact hN
  · exact hg1
  · exact hrc'
  · exact hrct'
  · dsimp only []
    rw [hoff']
    omega
  · dsimp only []
    simp only [hR] at hw2 ⊢
    omega
  · dsimp only []
    exact hti'
  · rfl
  · rfl
  · exact k2
  · intro j r r' h1 h2 h3
    exact ⟨(k3 j r r' h1 h2 h3).1, (k3 j r r' h1 h2 h3).2.1⟩

/-- Common tail of `move_current_set_left`/`move_current_set_right`: the
cursor row was replaced by a shifted copy `r₂` (same identity and cache,
offset within one) and the cursor item moved within the row's new window;
then `update_image_widgets` runs. -/
theorem move_shift_common (api : ApiM) (st st₁ : ControllerState) (now : Nat)
    (rc r₂ : SetRow)
    (hG : GoodRows st.rows) (hlen : NUM_ROWS ≤ st.rows.length)
    (hN : st.cursor.true_set_idx < api.num_sets) (hwf : WfRange st)
    (hrc : st.rows[st.cursor.true_set_idx % BUFFERED_ROWS]? = some rc)
    (hrct : rc.true_set_idx = st.cursor.true_set_idx)
    (hteq : r₂.true_set_idx = rc.true_set_idx)
    (hoff2 : r₂.left_right_idx_adjustment ≤ r₂.cached_img_id.length)
    (hnear : rc.left_right_idx_adjustment ≤
        r₂.left_right_idx_adjustment + 1 ∧
      r₂.left_right_idx_adjustment ≤ rc.left_right_idx_adjustment + 1)
    (h1 : st₁.rows = st.rows.set
      (st.cursor.true_set_idx % BUFFERED_ROWS) r₂)
    (h2 : st₁.cursor.true_set_idx = st.cursor.true_set_idx)
    (h3 : st₁.prev_visible_range = st.prev_visible_range)
    (h4 : r₂.left_right_idx_adjustment ≤ st₁.cursor.true_item_idx)
    (h5 : st₁.cursor.true_item_idx <
      r₂.left_right_idx_adjustment + ROW_STRIDE) :
    CtrlInv api (DisplayController.update_image_widgets api st₁ now) ∧
    OffsetsNear st.rows
      (DisplayController.update_image_widgets api st₁ now).rows := by
  have hslot_lt : st.cursor.true_set_idx % BUFFERED_ROWS < st.rows.length :=
    (list_get?_isSome_iff _ _).mp (by rw [hrc]; rfl)
  have hGset : GoodRows st₁.rows := by
    rw [h1]
    apply goodrows_set _ _ _ hG hslot_lt
    · rw [hteq, hrct]
    · exact hoff2
    · intro h6
      rw [hteq]
      exact hG.2.2 h6 _ rc hrc
  have hPre : PreInv api st₁ := by
    refine ⟨hGset, ?_, ?_, ?_, r₂, ?_, ?_, h4, h5⟩
    · rw [h1, List.length_set]
      exact hlen
    · rw [h2]
      exact hN
    · unfold WfRange
      rw [h3]
      exact hwf
    · rw [h1, h2, list_get?_set, if_pos ⟨rfl, hslot_lt⟩]
    · rw [hteq, hrct, h2]
  have hupd := update_master api st₁ now hPre
  refine ⟨hupd.1, ?_⟩
  intro j r r' hj1 hj2 hj3
  by_cases hj : j = st.cursor.true_set_idx % BUFFERED_ROWS
  · subst hj
    have hreq : r = rc := by
      rw [hrc] at hj1
      exact (Option.some.inj hj1).symm
    have hmid : st₁.rows[st.cursor.true_set_idx % BUFFERED_ROWS]? =
        some r₂ := by
      rw [h1, list_get?_set, if_pos ⟨rfl, hslot_lt⟩]
    have h6 := hupd.2.2.2.2 _ r₂ r' hmid hj2
      (by rw [hj3, hreq, hteq])
    rw [h6.1, hreq]
    exact hnear
  · have hmid : st₁.rows[j]? = some r := by
      rw [h1, list_get?_set, if_neg (fun hc => hj hc.1.symm)]
      exact hj1
    have h6 := hupd.2.2.2.2 j r r' hmid hj2 hj3
    rw [h6.1]
    exact ⟨Nat.le_succ _, Nat.le_succ _⟩

/-- Common tail of `move_to_prev_set`/`move_to_next_set`: `fetch_row` at the
new cursor set `t` returned row `r₁`, the cursor moved to `t` with its item
inside `r₁`'s window, and `update_image_widgets` runs. -/
theorem move_fetch_common (api : ApiM) (st st₁ : ControllerState)
    (now t : Nat) (r₁ : SetRow)
    (hG : GoodRows st.rows) (hlen : NUM_ROWS ≤ st.rows.length)
    (hwf : WfRange st) (ht_n : t < api.num_sets)
    (ht_len : st.rows.length < BUFFERED_ROWS → t ≤ st.rows.length)
    (hfound : (DisplayController.fetch_row api st.rows t).found =
      some (t % BUFFERED_ROWS, r₁))
    (h1 : st₁.rows = (DisplayController.fetch_row api st.rows t).rows)
    (h2 : st₁.cursor.true_set_idx = t)
    (h3 : st₁.prev_visible_range = st.prev_visible_range)
    (h4 : r₁.left_right_idx_adjustment ≤ st₁.cursor.true_item_idx)
    (h5 : st₁.cursor.true_item_idx <
      r₁.left_right_idx_adjustment + ROW_STRIDE) :
    CtrlInv api (DisplayController.update_image_widgets api st₁ now) ∧
    OffsetsNear st.rows
      (DisplayController.update_image_widgets api st₁ now).rows := by
  obtain ⟨hGf, hlenf, ⟨r₁', hfound', hslot₁, htrue₁, hoff₁⟩, hother, hunch⟩ :=
    fetch_row_full api st.rows t hG ht_len ht_n
  rw [hfound] at hfound'
  have hr₁ : r₁' = r₁ :=
    (congrArg Prod.snd (Option.some.inj hfound')).symm
  subst hr₁
  have hPre : PreInv api st₁ := by
    refine ⟨?_, ?_, ?_, ?_, r₁', ?_, ?_, h4, h5⟩
    · rw [h1]
      exact hGf
    · rw [h1]
      exact le_trans hlen hlenf
    · rw [h2]
      exact ht_n
    · unfold WfRange
      rw [h3]
      exact hwf
    · rw [h1, h2]
      exact hslot₁
    · rw [h2]
      exact htrue₁
  have hupd := update_master api st₁ now hPre
  refine ⟨hupd.1, ?_⟩
  intro j r r' hj1 hj2 hj3
  by_cases hj : j = t % BUFFERED_ROWS
  · subst hj
    by_cases hrt : r.true_set_idx = t
    · have hreq : r₁' = r := hunch _ r r₁' hj1 hslot₁ (htrue₁.trans hrt.symm)
      have h6 := hupd.2.2.2.2 _ r₁' r' (by rw [h1]; exact hslot₁) hj2
        (by rw [hj3, hreq])
      rw [h6.1, hreq]
      exact ⟨Nat.le_succ _, Nat.le_succ _⟩
    · exfalso
      obtain ⟨_, _, _, _, rcf, hrcf, hrcft, _, _, _⟩ := hupd.1
      rw [hupd.2.1, h2] at hrcf hrcft
      have h7 : r' = rcf := by
        rw [hj2] at hrcf
        exact Option.some.inj hrcf
      exact hrt (by rw [← hj3, h7, hrcft])
  · have hmid : st₁.rows[j]? = some r := by
      rw [h1, hother j hj]
      exact hj1
    have h6 := hupd.2.2.2.2 j r r' hmid hj2 hj3
    rw [h6.1]
    exact ⟨Nat.le_succ _, Nat.le_succ _⟩

theorem move_left_master (api : ApiM) (st : ControllerState) (now : Nat)
    (hI : CtrlInv api st) :
    CtrlInv api (DisplayController.move_current_set_left api st now) ∧
    OffsetsNear st.rows
      (DisplayController.move_current_set_left api st now).rows := by
  obtain ⟨hG, hlen, hN, hwf, rc, hrc, hrct, hti, hadj, hcache⟩ := hI
  have hR : ROW_STRIDE = 6 := rfl
  have hfr := fetch_row_hit api st.rows st.cursor.true_set_idx rc hrc hrct
  have hsl := shift_left_cases rc st.cursor.adjusted_item_idx
  have hoffc := (hG.2.1 _ rc hrc).2
  unfold DisplayController.move_current_set_left
  simp only []
  rw [hfr]
  dsimp only []
  by_cases hti0 : st.cursor.true_item_idx > 0
  · rw [if_pos hti0]
    refine move_shift_common api st _ now rc
      (rc.shift_left st.cursor.adjusted_item_idx) hG hlen hN hwf hrc hrct
      hsl.1 ?_ ?_ rfl rfl rfl ?_ ?_
    · rw [hsl.2.1]
      rcases hsl.2.2.2 with ⟨c1, c2, c3⟩ | ⟨c1 | c1, c3⟩ <;> omega
    · rcases hsl.2.2.2 with ⟨c1, c2, c3⟩ | ⟨c1 | c1, c3⟩ <;>
        exact ⟨by omega, by omega⟩
    · dsimp only []
      rcases hsl.2.2.2 with ⟨c1, c2, c3⟩ | ⟨c1 | c1, c3⟩ <;> omega
    · dsimp only []
      rcases hsl.2.2.2 with ⟨c1, c2, c3⟩ | ⟨c1 | c1, c3⟩ <;>
        (simp only [hR] at hadj ⊢; omega)
  · rw [if_neg hti0]
    refine move_shift_common api st _ now rc
      (rc.shift_left st.cursor.adjusted_item_idx) hG hlen hN hwf hrc hrct
      hsl.1 ?_ ?_ rfl rfl rfl ?_ ?_
    · rw [hsl.2.1]
      rcases hsl.2.2.2 with ⟨c1, c2, c3⟩ | ⟨c1 | c1, c3⟩ <;> omega
    · rcases hsl.2.2.2 with ⟨c1, c2, c3⟩ | ⟨c1 | c1, c3⟩ <;>
        exact ⟨by omega, by omega⟩
    · dsimp only []
      rcases hsl.2.2.2 with ⟨c1, c2, c3⟩ | ⟨c1 | c1, c3⟩ <;> omega
    · dsimp only []
      rcases hsl.2.2.2 with ⟨c1, c2, c3⟩ | ⟨c1 | c1, c3⟩ <;>
        (simp only [hR] at hadj ⊢; omega)

theorem move_right_master (api : ApiM) (st : ControllerState) (now : Nat)
    (hI : CtrlInv api st) :
    CtrlInv api (DisplayController.move_current_set_right api st now) ∧
    OffsetsNear st.rows
      (DisplayController.move_current_set_right api st now).rows := by
  obtain ⟨hG, hlen, hN, hwf, rc, hrc, hrct, hti, hadj, hcache⟩ := hI
  have hR : ROW_STRIDE = 6 := rfl
  have hfr := fetch_row_hit api st.rows st.cursor.true_set_idx rc hrc hrct
  have hsr := shift_right_cases rc st.cursor.adjusted_item_idx
    st.cursor.true_item_idx
  have hoffc := (hG.2.1 _ rc hrc).2
  unfold DisplayController.move_current_set_right
  simp only []
  rw [hfr]
  dsimp only []
  rcases hsr.2.2.2 with ⟨d1, d2, d3⟩ | ⟨d1, d2, d3⟩
  · rw [d2, if_pos rfl]
    refine move_shift_common api st _ now rc
      (rc.shift_right st.cursor.adjusted_item_idx
        st.cursor.true_item_idx).1 hG hlen hN hwf hrc hrct
      hsr.1 ?_ ?_ rfl rfl rfl ?_ ?_
    · rw [hsr.2.1]
      rcases d3 with ⟨e1, e2⟩ | ⟨e1, e2⟩ <;> omega
    · rcases d3 with ⟨e1, e2⟩ | ⟨e1, e2⟩ <;> exact ⟨by omega, by omega⟩
    · dsimp only []
      rcases d3 with ⟨e1, e2⟩ | ⟨e1, e2⟩ <;> omega
    · dsimp only []
      rcases d3 with ⟨e1, e2⟩ | ⟨e1, e2⟩ <;>
        (simp only [hR] at hadj e1 ⊢; omega)
  · rw [d2, if_neg Bool.false_ne_true, d3]
    refine move_shift_common api st _ now rc rc hG hlen hN hwf hrc hrct
      rfl hoffc ⟨Nat.le_succ _, Nat.le_succ _⟩ rfl rfl rfl ?_ ?_
    · dsimp only []
      omega
    · dsimp only []
      simp only [hR] at hadj ⊢
      omega

theorem move_up_master (api : ApiM) (st : ControllerState) (now : Nat)
    (hI : CtrlInv api st) :
    CtrlInv api (DisplayController.move_to_prev_set api st now) ∧
    OffsetsNear st.rows
      (DisplayController.move_to_prev_set api st now).rows := by
  obtain ⟨hG, hlen, hN, hwf, rc, hrc, hrct, hti, hadj, hcache⟩ := hI
  have hR : ROW_STRIDE = 6 := rfl
  have hslot_lt : st.cursor.true_set_idx % BUFFERED_ROWS < st.rows.length :=
    (list_get?_isSome_iff _ _).mp (by rw [hrc]; rfl)
  have hc_lt : st.rows.length < BUFFERED_ROWS →
      st.cursor.true_set_idx < st.rows.length := by
    intro h6
    have hpre := hG.2.2 h6 _ rc hrc
    rw [hrct] at hpre
    have h2 := hslot_lt
    rw [← hpre] at h2
    exact h2
  by_cases hc0 : st.cursor.true_set_idx > 0
  · obtain ⟨hGf, hlenf, ⟨r₁, hfound, hslot₁, htrue₁, hoff₁⟩, hother, hunch⟩ :=
      fetch_row_full api st.rows (st.cursor.true_set_idx - 1) hG
        (fun h6 => by have := hc_lt h6; omega) (by omega)
    unfold DisplayController.move_to_prev_set
    simp only []
    rw [if_pos hc0]
    rw [hfound]
    dsimp only []
    exact move_fetch_common api st _ now (st.cursor.true_set_idx - 1) r₁
      hG hlen hwf (by omega) (fun h6 => by have := hc_lt h6; omega) hfound
      rfl rfl rfl (Nat.le_add_left _ _)
      (by simp only [hR] at hadj ⊢; omega)
  · unfold DisplayController.move_to_prev_set
    simp only []
    rw [if_neg hc0]
    have hPre : PreInv api st :=
      ⟨hG, hlen, hN, hwf, rc, hrc, hrct, by omega, by omega⟩
    have hupd := update_master api st now hPre
    refine ⟨hupd.1, ?_⟩
    intro j r r' hj1 hj2 hj3
    have h6 := hupd.2.2.2.2 j r r' hj1 hj2 hj3
    rw [h6.1]
    exact ⟨Nat.le_succ _, Nat.le_succ _⟩

theorem move_down_master (api : ApiM) (st : ControllerState) (now : Nat)
    (hI : CtrlInv api st) :
    CtrlInv api (DisplayController.move_to_next_set api st now) ∧
    OffsetsNear st.rows
      (DisplayController.move_to_next_set api st now).rows := by
  obtain ⟨hG, hlen, hN, hwf, rc, hrc, hrct, hti, hadj, hcache⟩ := hI
  have hR : ROW_STRIDE = 6 := rfl
  have hslot_lt : st.cursor.true_set_idx % BUFFERED_ROWS < st.rows.length :=
    (list_get?_isSome_iff _ _).mp (by rw [hrc]; rfl)
  have hc_lt : st.rows.length < BUFFERED_ROWS →
      st.cursor.true_set_idx < st.rows.length := by
    intro h6
    have hpre := hG.2.2 h6 _ rc hrc
    rw [hrct] at hpre
    have h2 := hslot_lt
    rw [← hpre] at h2
    exact h2
  by_cases hg : st.cursor.true_set_idx < api.num_sets - 1
  · obtain ⟨hGf, hlenf, ⟨r₁, hfound, hslot₁, htrue₁, hoff₁⟩, hother, hunch⟩ :=
      fetch_row_full api st.rows (st.cursor.true_set_idx + 1) hG
        (fun h6 => by have := hc_lt h6; omega) (by omega)
    unfold DisplayController.move_to_next_set
    simp only []
    rw [if_pos hg]
    rw [hfound]
    dsimp only []
    exact move_fetch_common api st _ now (st.cursor.true_set_idx + 1) r₁
      hG hlen hwf (by omega) (fun h6 => by have := hc_lt h6; omega) hfound
      rfl rfl rfl (Nat.le_add_left _ _)
      (by simp only [hR] at hadj ⊢; omega)
  · unfold DisplayController.move_to_next_set
    simp only []
    rw [if_neg hg]
    have hPre : PreInv api st :=
      ⟨hG, hlen, hN, hwf, rc, hrc, hrct, by omega, by omega⟩
    have hupd := update_master api st now hPre
    refine ⟨hupd.1, ?_⟩
    intro j r r' hj1 hj2 hj3
    have h6 := hupd.2.2.2.2 j r r' hj1 hj2 hj3
    rw [h6.1]
    exact ⟨Nat.le_succ _, Nat.le_succ _⟩

theorem refresh_master (api : ApiM) (st : ControllerState) (now₁ now₂ : Nat)
    (hI : CtrlInv api st) :
    CtrlInv api (DisplayController.update_image_widgets api
      { st with notifier := st.notifier.reset now₁ } now₂) ∧
    OffsetsNear st.rows (DisplayController.update_image_widgets api
      { st with notifier := st.notifier.reset now₁ } now₂).rows := by
  obtain ⟨hG, hlen, hN, hwf, rc, hrc, hrct, hti, hadj, hcache⟩ := hI
  have hPre : PreInv api { st with notifier := st.notifier.reset now₁ } :=
    ⟨hG, hlen, hN, hwf, rc, hrc, hrct, by dsimp only []; omega,
      by dsimp only []; omega⟩
  have hupd := update_master api _ now₂ hPre
  refine ⟨hupd.1, ?_⟩
  intro j r r' hj1 hj2 hj3
  have h6 := hupd.2.2.2.2 j r r' hj1 hj2 hj3
  rw [h6.1]
  exact ⟨Nat.le_succ _, Nat.le_succ _⟩

/-- Every main-loop step preserves the invariant and moves each surviving
row's offset by at most one. -/
theorem step_master (api : ApiM) (st st' : ControllerState)
    (hs : Step api st st') (hI : CtrlInv api st) :
    CtrlInv api st' ∧ OffsetsNear st.rows st'.rows := by
  cases hs with
  | left now => exact move_left_master api st now hI
  | right now => exact move_right_master api st now hI
  | up now => exact move_up_master api st now hI
  | down now => exact move_down_master api st now hI
  | refresh now₁ now₂ hneed => exact refresh_master api st now₁ now₂ hI

/-- The row-building loop of `initialize`: it appends one fresh, fully shown
row per listed set index, preserving earlier entries; each appended row keeps
the set index it was built from, offset `0`, and a non-empty cache. -/
theorem init_rows_go_spec (api : ApiM) (cursor : Cursor) (now : Nat) :
    ∀ (idxs : List Nat) (rows : List SetRow) (img : DispCtrlImgData)
      (n : ImgLoadingNotifier),
      (init_rows_go api cursor now idxs rows img n).1.length =
        rows.length + idxs.length ∧
      (∀ j : Nat, j < rows.length →
        (init_rows_go api cursor now idxs rows img n).1[j]? = rows[j]?) ∧
      (∀ k v : Nat, idxs[k]? = some v →
        ∃ r, (init_rows_go api cursor now idxs rows img
            n).1[rows.length + k]? = some r ∧
          r.true_set_idx = v ∧ r.left_right_idx_adjustment = 0 ∧
          0 < r.cached_img_id.length) := by
  intro idxs
  induction idxs with
  | nil =>
      intro rows img n
      have h0 : init_rows_go api cursor now [] rows img n =
        (rows, img, n) := rfl
      rw [h0]
      refine ⟨by simp, fun j _ => rfl, ?_⟩
      intro k v hk
      simp at hk
  | cons a rest ih =>
      intro rows img n
      have hstep : init_rows_go api cursor now (a :: rest) rows img n =
        init_rows_go api cursor now rest
          (rows ++ [(showRowPass api cursor a now
            (SetRow.new (api.sets a) a) img n).row])
          (showRowPass api cursor a now
            (SetRow.new (api.sets a) a) img n).img_data
          (showRowPass api cursor a now
            (SetRow.new (api.sets a) a) img n).notifier := rfl
      rw [hstep]
      obtain ⟨ih1, ih2, ih3⟩ := ih
        (rows ++ [(showRowPass api cursor a now
          (SetRow.new (api.sets a) a) img n).row])
        (showRowPass api cursor a now
          (SetRow.new (api.sets a) a) img n).img_data
        (showRowPass api cursor a now
          (SetRow.new (api.sets a) a) img n).notifier
      refine ⟨?_, ?_, ?_⟩
      · rw [ih1]
        simp
        omega
      · intro j hj
        rw [ih2 j (by simp; omega), list_get?_concat, if_pos hj]
      · intro k v hk
        cases k with
        | zero =>
            have hv : v = a := by
              simp at hk
              exact hk.symm
            obtain ⟨p1, p2, p3, p4, p5, p6, p7⟩ := showRowPass_spec api
              cursor a now (SetRow.new (api.sets a) a) img n (Nat.le_refl 0)
            refine ⟨(showRowPass api cursor a now
              (SetRow.new (api.sets a) a) img n).row, ?_, ?_, ?_, ?_⟩
            · rw [Nat.add_zero, ih2 rows.length (by simp),
                list_get?_concat, if_neg (by omega), if_pos rfl]
            · rw [p2, hv]
              rfl
            · rw [p3]
              rfl
            · have h5 := p5 0 (Nat.zero_le _) (by
                have hR : ROW_STRIDE = 6 := rfl
                simp [hR])
              have := (list_get?_isSome_iff _ _).mp h5
              omega
        | succ k' =>
            have hk' : rest[k']? = some v := by
              rw [List.getElem?_cons_succ] at hk
              exact hk
            obtain ⟨r, hr1, hr2, hr3, hr4⟩ := ih3 k' v hk'
            refine ⟨r, ?_, hr2, hr3, hr4⟩
            rw [show rows.length + (k' + 1) =
              (rows ++ [(showRowPass api cursor a now
                (SetRow.new (api.sets a) a) img n).row]).length + k' from by
              simp; omega]
            exact hr1

/-- The startup state satisfies the invariant whenever the api holds at least
`NUM_ROWS` sets (the standing unwrap hypothesis of `initialize`). -/
theorem startState_inv (api : ApiM) (now : Nat)
    (hnum : NUM_ROWS ≤ api.num_sets) : CtrlInv api (startState api now) := by
  have hB : BUFFERED_ROWS = 6 := rfl
  have hstart : startState api now =
    { initialized := true
      rows := (init_rows_go api Cursor.start now [0, 1, 2, 3] []
        ⟨2, 0⟩ ⟨true, 0, none⟩).1
      disp_ctrl_img_data := (init_rows_go api Cursor.start now [0, 1, 2, 3]
        [] ⟨2, 0⟩ ⟨true, 0, none⟩).2.1
      prev_visible_range := ⟨0, NUM_ROWS⟩
      cursor := Cursor.start
      notifier := (init_rows_go api Cursor.start now [0, 1, 2, 3] []
        ⟨2, 0⟩ ⟨true, 0, none⟩).2.2 } := rfl
  rw [hstart]
  obtain ⟨l1, l2, l3⟩ := init_rows_go_spec api Cursor.start now [0, 1, 2, 3]
    [] ⟨2, 0⟩ ⟨true, 0, none⟩
  have hlen4 : (init_rows_go api Cursor.start now [0, 1, 2, 3] []
      ⟨2, 0⟩ ⟨true, 0, none⟩).1.length = 4 := by
    rw [l1]
    rfl
  have hrow : ∀ i : Nat, i < 4 →
      ∃ r, (init_rows_go api Cursor.start now [0, 1, 2, 3] []
        ⟨2, 0⟩ ⟨true, 0, none⟩).1[i]? = some r ∧
        r.true_set_idx = i ∧ r.left_right_idx_adjustment = 0 ∧
        0 < r.cached_img_id.length := by
    intro i hi
    have hvi : [0, 1, 2, 3][i]? = some i := by
      interval_cases i <;> rfl
    obtain ⟨r, hr1, hr2, hr3, hr4⟩ := l3 i i hvi
    rw [show List.length ([] : List SetRow) + i = i from by simp] at hr1
    exact ⟨r, hr1, hr2, hr3, hr4⟩
  have hG : GoodRows (init_rows_go api Cursor.start now [0, 1, 2, 3] []
      ⟨2, 0⟩ ⟨true, 0, none⟩).1 := by
    refine ⟨by rw [hlen4]; simp only [hB]; omega, ?_, ?_⟩
    · intro i r hi
      have hi4 : i < 4 := by
        have := (list_get?_isSome_iff _ _).mp (by rw [hi]; rfl)
        omega
      obtain ⟨r', hr1, hr2, hr3, hr4⟩ := hrow i hi4
      rw [hr1] at hi
      cases hi
      constructor
      · rw [hr2]
        simp only [hB]
        omega
      · rw [hr3]
        exact Nat.zero_le _
    · intro _ i r hi
      have hi4 : i < 4 := by
        have := (list_get?_isSome_iff _ _).mp (by rw [hi]; rfl)
        omega
      obtain ⟨r', hr1, hr2, hr3, hr4⟩ := hrow i hi4
      rw [hr1] at hi
      cases hi
      exact hr2
  obtain ⟨r0, hr01, hr02, hr03, hr04⟩ := hrow 0 (by omega)
  refine ⟨hG, ?_, ?_, ?_, r0, ?_, ?_, ?_, ?_, ?_⟩
  · rw [hlen4]
    unfold NUM_ROWS
    omega
  · show (0 : Nat) < api.num_sets
    unfold NUM_ROWS at hnum
    omega
  · unfold WfRange
    dsimp only []
    omega
  · exact hr01
  · rw [hr02]
    rfl
  · show (0 : Nat) = 0 + r0.left_right_idx_adjustment
    rw [hr03]
  · show (0 : Nat) < ROW_STRIDE
    unfold ROW_STRIDE
    omega
  · show (0 : Nat) < r0.cached_img_id.length
    exact hr04

/-- Every reachable state satisfies the controller invariant. -/
theorem reachable_inv (api : ApiM) (st : ControllerState)
    (hnum : NUM_ROWS ≤ api.num_sets) (h : Reachable api st) :
    CtrlInv api st := by
  induction h with
  | start now => exact startState_inv api now hnum
  | step hr hs ih => exact (step_master api _ _ hs ih).1

/-- C1: in every reachable state the cursor's current row sits at its home
slot and the cursor satisfies `true_item = adjusted_item + row_offset` with
`adjusted_item < ROW_STRIDE`; this holds after every navigation operation and
update starting from the all-zero startup cursor (`Reachable` covers exactly
those states, under the standing unwrap hypothesis
`NUM_ROWS ≤ api.num_sets` of `initialize`). -/
theorem cursor_arith_spec (api : ApiM) (st : ControllerState)
    (hnum : NUM_ROWS ≤ api.num_sets) (h : Reachable api st) :
    ∃ rc : SetRow,
      st.rows[st.cursor.true_set_idx % BUFFERED_ROWS]? = some rc ∧
      rc.true_set_idx = st.cursor.true_set_idx ∧
      st.cursor.true_item_idx =
        st.cursor.adjusted_item_idx + rc.left_right_idx_adjustment ∧
      st.cursor.adjusted_item_idx < ROW_STRIDE := by
  obtain ⟨_, _, _, _, rc, h1, h2, h3, h4, _⟩ := reachable_inv api st hnum h
  exact ⟨rc, h1, h2, h3, h4⟩

/-- C9: in every reachable state the ring buffer holds at most
`BUFFERED_ROWS` rows and every stored row sits at its home slot
(`true_set_idx % BUFFERED_ROWS` equals its index), which is what makes the
hit test of `fetch_row` sound. -/
theorem ring_slots_spec (api : ApiM) (st : ControllerState)
    (hnum : NUM_ROWS ≤ api.num_sets) (h : Reachable api st) :
    st.rows.length ≤ BUFFERED_ROWS ∧
    ∀ i : Nat, ∀ r : SetRow, st.rows[i]? = some r →
      r.true_set_idx % BUFFERED_ROWS = i := by
  have hI := reachable_inv api st hnum h
  exact ⟨hI.1.1, fun i r hi => (hI.1.2.1 i r hi).1⟩

/-- C7: `row_offset` (a `usize`, modelled as `Nat`) is always nonnegative and
`shift_left` decrements it by exactly one or leaves it unchanged (the `> 0`
guard means the subtraction never underflows); and over any single navigation
step from a reachable state, every row matched by slot and identity changes
its offset by at most one. -/
theorem offset_step_spec (api : ApiM) (st st' : ControllerState)
    (hnum : NUM_ROWS ≤ api.num_sets) (h : Reachable api st)
    (hs : Step api st st') :
    (∀ j : Nat, ∀ r : SetRow, st.rows[j]? = some r →
      0 ≤ r.left_right_idx_adjustment) ∧
    (∀ (r : SetRow) (a : Nat),
      (r.shift_left a).left_right_idx_adjustment + 1 =
        r.left_right_idx_adjustment ∨
      (r.shift_left a).left_right_idx_adjustment =
        r.left_right_idx_adjustment) ∧
    (∀ j : Nat, ∀ r r' : SetRow, st.rows[j]? = some r →
      st'.rows[j]? = some r' → r'.true_set_idx = r.true_set_idx →
      r.left_right_idx_adjustment ≤ r'.left_right_idx_adjustment + 1 ∧
      r'.left_right_idx_adjustment ≤ r.left_right_idx_adjustment + 1) := by
  refine ⟨fun _ _ _ => Nat.zero_le _, ?_, ?_⟩
  · intro r a
    rcases (shift_left_cases r a).2.2.2 with ⟨_, _, h1⟩ | ⟨_, h1⟩
    · exact Or.inl h1
    · exact Or.inr h1
  · exact (step_master api st st' hs (reachable_inv api st hnum h)).2

/-- C10: in every reachable state each row's item cache is dense (every index
below its length holds an entry) and the row's offset is at most the cache
length; `populate_cache_if_needed` called with an index at most the cache
length — the only way `show` calls it in reachable states — leaves an entry
at that index (so the unwrap after it cannot panic) and grows the cache by at
most one; and a full row pass leaves an entry at every index of the row's
`ROW_STRIDE`-wide window. -/
theorem cache_dense_spec (api : ApiM) (st : ControllerState)
    (hnum : NUM_ROWS ≤ api.num_sets) (h : Reachable api st) :
    (∀ j : Nat, ∀ r : SetRow, st.rows[j]? = some r →
      (∀ i : Nat, i < r.cached_img_id.length →
        (r.cached_img_id[i]?).isSome = true) ∧
      r.left_right_idx_adjustment ≤ r.cached_img_id.length) ∧
    (∀ (r : SetRow) (i : Nat) (img : DispCtrlImgData)
      (n : ImgLoadingNotifier) (now : Nat),
      i ≤ r.cached_img_id.length →
      ((r.populate_cache_if_needed api i img n
        now).1.cached_img_id[i]?).isSome = true ∧
      (r.populate_cache_if_needed api i img n
        now).1.cached_img_id.length ≤ r.cached_img_id.length + 1) ∧
    (∀ (cursor : Cursor) (a_set now : Nat) (r : SetRow)
      (img : DispCtrlImgData) (n : ImgLoadingNotifier),
      r.left_right_idx_adjustment ≤ r.cached_img_id.length →
      ∀ j : Nat, r.left_right_idx_adjustment ≤ j →
        j < r.left_right_idx_adjustment + ROW_STRIDE →
        ((showRowPass api cursor a_set now r img
          n).row.cached_img_id[j]?).isSome = true) := by
  refine ⟨?_, ?_, ?_⟩
  · intro j r hj
    refine ⟨fun i hi => (list_get?_isSome_iff _ _).mpr hi, ?_⟩
    exact ((reachable_inv api st hnum h).1.2.1 j r hj).2
  · intro r i img n now hi
    exact ⟨populate_entry_at api r i img n now hi,
      (populate_length api r i img n now).2⟩
  · intro cursor a_set now r img n hoff j h1 h2
    exact (showRowPass_spec api cursor a_set now r img n hoff).2.2.2.2.1 j h1 h2

end MasterLoop

/-! ## Witnesses: the claim theorems applied at concrete inputs -/

theorem cursor_arith_witness :
    ∃ rc : SetRow,
      (startState api0 0).rows[(startState api0
        0).cursor.true_set_idx % BUFFERED_ROWS]? = some rc ∧
      rc.true_set_idx = (startState api0 0).cursor.true_set_idx ∧
      (startState api0 0).cursor.true_item_idx =
        (startState api0 0).cursor.adjusted_item_idx +
          rc.left_right_idx_adjustment ∧
      (startState api0 0).cursor.adjusted_item_idx < ROW_STRIDE :=
  cursor_arith_spec api0 (startState api0 0) (by decide) (Reachable.start 0)

theorem ring_slots_witness :
    (startState api0 0).rows.length ≤ BUFFERED_ROWS ∧
    ∀ i : Nat, ∀ r : SetRow, (startState api0 0).rows[i]? = some r →
      r.true_set_idx % BUFFERED_ROWS = i :=
  ring_slots_spec api0 (startState api0 0) (by decide) (Reachable.start 0)

theorem offset_step_witness :
    (∀ j : Nat, ∀ r : SetRow, (startState api0 0).rows[j]? = some r →
      0 ≤ r.left_right_idx_adjustment) ∧
    (∀ (r : SetRow) (a : Nat),
      (r.shift_left a).left_right_idx_adjustment + 1 =
        r.left_right_idx_adjustment ∨
      (r.shift_left a).left_right_idx_adjustment =
        r.left_right_idx_adjustment) ∧
    (∀ j : Nat, ∀ r r' : SetRow, (startState api0 0).rows[j]? = some r →
      (DisplayController.move_to_next_set api0 (startState api0 0)
        0).rows[j]? = some r' → r'.true_set_idx = r.true_set_idx →
      r.left_right_idx_adjustment ≤ r'.left_right_idx_adjustment + 1 ∧
      r'.left_right_idx_adjustment ≤ r.left_right_idx_adjustment + 1) :=
  offset_step_spec api0 (startState api0 0)
    (DisplayController.move_to_next_set api0 (startState api0 0) 0)
    (by decide) (Reachable.start 0) (Step.down _ 0)

theorem cache_dense_witness :
    (∀ j : Nat, ∀ r : SetRow, (startState api0 0).rows[j]? = some r →
      (∀ i : Nat, i < r.cached_img_id.length →
        (r.cached_img_id[i]?).isSome = true) ∧
      r.left_right_idx_adjustment ≤ r.cached_img_id.length) ∧
    (∀ (r : SetRow) (i : Nat) (img : DispCtrlImgData)
      (n : ImgLoadingNotifier) (now : Nat),
      i ≤ r.cached_img_id.length →
      ((r.populate_cache_if_needed api0 i img n
        now).1.cached_img_id[i]?).isSome = true ∧
      (r.populate_cache_if_needed api0 i img n
        now).1.cached_img_id.length ≤ r.cached_img_id.length + 1) ∧
    (∀ (cursor : Cursor) (a_set now : Nat) (r : SetRow)
      (img : DispCtrlImgData) (n : ImgLoadingNotifier),
      r.left_right_idx_adjustment ≤ r.cached_img_id.length →
      ∀ j : Nat, r.left_right_idx_adjustment ≤ j →
        j < r.left_right_idx_adjustment + ROW_STRIDE →
        ((showRowPass api0 cursor a_set now r img
          n).row.cached_img_id[j]?).isSome = true) :=
  cache_dense_spec api0 (startState api0 0) (by decide) (Reachable.start 0)

theorem fetch_row_cache_witness :
    ((DisplayController.fetch_row api0 [] 0).queried = false ↔
      RowHit [] 0) ∧
    (∀ r : SetRow, ([] : List SetRow)[0 % BUFFERED_ROWS]? = some r →
      r.true_set_idx = 0 →
      DisplayController.fetch_row api0 [] 0 =
        ⟨[], some (0 % BUFFERED_ROWS, r), false⟩) ∧
    (∀ d : SetDataM, ¬ RowHit [] 0 → api0.get_set 0 = some d →
      (SetRow.new d 0).cached_img_id = [] ∧
      (SetRow.new d 0).left_right_idx_adjustment = 0 ∧
      DisplayController.fetch_row api0 [] 0 =
        ⟨if 0 % BUFFERED_ROWS = ([] : List SetRow).length then
            [] ++ [SetRow.new d 0]
          else ([] : List SetRow).set (0 % BUFFERED_ROWS) (SetRow.new d 0),
          some (0 % BUFFERED_ROWS, SetRow.new d 0), true⟩ ∧
      DisplayController.fetch_row api0
          (DisplayController.fetch_row api0 [] 0).rows 0 =
        ⟨(DisplayController.fetch_row api0 [] 0).rows,
          some (0 % BUFFERED_ROWS, SetRow.new d 0), false⟩) :=
  fetch_row_cache_spec api0 [] 0 (by decide)

theorem down_up_roundtrip_witness :
    (movesUp api0 [0] (movesDown api0 [0]
      (startState api0 0))).cursor.true_set_idx =
      (startState api0 0).cursor.true_set_idx ∧
    (movesUp api0 [0] (movesDown api0 [0]
      (startState api0 0))).prev_visible_range.contains
      (movesUp api0 [0] (movesDown api0 [0]
        (startState api0 0))).cursor.true_set_idx :=
  down_up_roundtrip api0 (startState api0 0) [0] [0] rfl (by decide) rfl
    ⟨by decide, by decide⟩
